import Mathlib

/-!
# Sparse-to-dense voxel import and dial manipulator

A shallow embedding of

* `intern/openvdb/intern/openvdb_dense_convert.h`
  (`OpenVDB_import_grid`, `OpenVDB_import_grid_extern`), and
* `source/blender/windowmanager/manipulators/intern/manipulator_library/dial_manipulator.c`
  (`manipulator_dial_invoke`).

Conventions of the embedding.

* The C `int`/`short`/`size_t` values are mathematical integers (`Int`, `Nat`); the
  embedding describes the defined behaviour of the code, signed overflow is not part of it.
* The voxel type `T` of the templates is an arbitrary linearly ordered ring with exact
  arithmetic (`Int`, `ℚ`).  This stands for `float` on ordinary numbers; NaN and rounding
  are outside the model.
* A caller supplied buffer `T *data` is a function `Nat → T` from element index to content.
* A result `none` means that the call produces no result: it dereferences a null pointer,
  indexes a coordinate out of range, clears more memory than any buffer holds, or (for
  the fuel-indexed loops) is still running when the fuel is used up.
-/

set_option linter.unusedSectionVars false

namespace internal

/-! ## Data model -/

/-- The type `openvdb::Name`, a string. -/
abbrev Name := String

/-- The type `openvdb::math::Coord`: three signed integer components, indexed `0`, `1`, `2`. -/
abbrev Coord := Fin 3 → Int

/-- The coordinate `Coord(x, y, z)`. -/
def Coord.mk3 (x y z : Int) : Coord := ![x, y, z]

/-- The default constructed coordinate `Coord()`, all components zero. -/
def Coord.origin : Coord := fun _ => 0

/-- The grid classes of the sparse-volume library that the bridge is instantiated with;
this is the template parameter `GridType`. -/
inductive GridClass where
  | FloatGrid
  | Int32Grid
  | Vec3SGrid
  deriving DecidableEq, Repr

/-- The enumeration `openvdb::VecType`. -/
inductive VecType where
  | VEC_INVARIANT
  | VEC_COVARIANT
  | VEC_COVARIANT_NORMALIZE
  | VEC_CONTRAVARIANT_RELATIVE
  | VEC_CONTRAVARIANT_ABSOLUTE
  deriving DecidableEq, Repr

/-- A 4x4 matrix (`float mat[4][4]`, `openvdb::Mat4R`). -/
abbrev Mat4 (T : Type) := Fin 4 → Fin 4 → T

section Model

variable {T : Type} [LinearOrderedRing T]

/-- Modelled from the spec: the sparse tree of the third-party volumetric-grid library,
which is not part of the sources.  It is a background value together with the finitely
many voxels that are set (active); every other voxel reads as the background. -/
structure Tree (T : Type) where
  background : T
  voxels : List (Coord × T)

/-- Modelled from the spec: the library accessor `getValue`, the stored value of a set
voxel and the background value for an unset voxel. -/
def Tree.getValue (t : Tree T) (xyz : Coord) : T :=
  (t.voxels.lookup xyz).getD t.background

/-- Modelled from the spec: a grid of the library (`openvdb::GridBase` and its typed
subclasses): the class of the grid, its name and the other metadata the bridge sets, and
its tree. -/
structure GridBase (T : Type) where
  gridClass : GridClass
  tree : Tree T
  name : Name
  transform : Option (Mat4 T)
  isInWorldSpace : Bool
  vectorType : VecType

/-- The test `grid_b->isType<GridType>()`. -/
def GridBase.isType (g : GridBase T) (GridType : GridClass) : Bool :=
  decide (g.gridClass = GridType)

/-- The cast `gridPtrCast<GridType>(grid)`: the grid itself when it is of class
`GridType`, the null pointer otherwise. -/
def gridPtrCast (GridType : GridClass) (g : Option (GridBase T)) : Option (GridBase T) :=
  match g with
  | some g => if g.isType GridType then some g else none
  | none => none

/-- Modelled from the spec: the reader class `OpenVDBReader` (declared in
`openvdb_reader.h`, not part of the sources): for every name the grid the opened file
holds under that name, if any. -/
structure OpenVDBReader (T : Type) where
  grid : Name → Option (GridBase T)

/-- Modelled from the spec: `OpenVDBReader::hasGrid`. -/
def OpenVDBReader.hasGrid (r : OpenVDBReader T) (name : Name) : Bool :=
  (r.grid name).isSome

/-- Modelled from the spec: `OpenVDBReader::getGrid`; the null pointer when the file has
no grid of that name. -/
def OpenVDBReader.getGrid (r : OpenVDBReader T) (name : Name) : Option (GridBase T) :=
  r.grid name

/-! ## `OpenVDB_import_grid` -/

/-- The effect of `memset(*data, 0, sizeof(T) * n)` for an element count `n`: the first
`n` elements become zero.  For a negative `n` the byte count, converted to the unsigned
`size_t`, is larger than any buffer and the call has no result. -/
def memset_zero (data : Nat → T) (n : Int) : Option (Nat → T) :=
  if n < 0 then none else some fun i => if (i : Int) < n then 0 else data i

/-- A counting loop `for (v = v0; v < hi; ++v) body`, whose body does not assign `v`. -/
def forCount {S : Type} (hi : Int) (body : Int → S → S) (v : Int) (s : S) : S :=
  if v < hi then forCount hi body (v + 1) (body v s) else s
termination_by (hi - v).toNat
decreasing_by omega

/-- The variables the copy loops of `OpenVDB_import_grid` update: the running `index` and
the buffer `*data`. -/
structure ImportState (T : Type) where
  index : Nat
  data : Nat → T

/-- Lines 97-110 of `OpenVDB_import_grid`: cast the grid and copy it, `x` fastest. -/
def OpenVDB_import_grid_copy (GridType : GridClass) (grid_b : Option (GridBase T))
    (data : Nat → T) (res : Fin 3 → Int) : Option (Nat → T) :=
  match gridPtrCast GridType grid_b with
  | none => none
  | some grid =>
    let acc := grid.tree
    let s : ImportState T := { index := 0, data := data }
    let s :=
      forCount (res 2) (fun z s =>
        forCount (res 1) (fun y s =>
          forCount (res 0) (fun x s =>
            { index := s.index + 1
              data := Function.update s.data s.index (acc.getValue (Coord.mk3 x y z)) })
            0 s)
          0 s)
        0 s
    some s.data

/-- The function `OpenVDB_import_grid<GridType, T>`; `do_name_versionning` is declared
only and is a parameter.  The result is the buffer `*data` after the call. -/
def OpenVDB_import_grid (do_name_versionning : Name → Name) (GridType : GridClass)
    (reader : OpenVDBReader T) (name : Name) (data : Nat → T) (res : Fin 3 → Int) :
    Option (Nat → T) :=
  let temp_name := name
  if !reader.hasGrid temp_name then
    let temp_name := do_name_versionning temp_name
    if !reader.hasGrid temp_name then
      memset_zero data (res 0 * res 1 * res 2)
    else
      OpenVDB_import_grid_copy GridType (reader.getGrid temp_name) data res
  else
    OpenVDB_import_grid_copy GridType (reader.getGrid temp_name) data res

/-! ## `OpenVDB_import_grid_extern` -/

/-- A C loop `for (init; cond; step) body`, started after `init`.  The body may itself
fail to produce a result.  At most `fuel - 1` iterations are run: the result is `none`
when the loop is still running after that. -/
def forLoop {S : Type} (cond : S → Bool) (step : S → S) (body : S → Option S) :
    Nat → S → Option S
  | 0, _ => none
  | fuel + 1, s =>
    if cond s then (body s).bind fun s => forLoop cond step body fuel (step s)
    else some s

/-- Line 152: `bool inv_z = up >= 3;`. -/
def extern_inv_z (up : Int) : Bool := decide (up ≥ 3)

/-- Line 153: `bool inv_y = front < 3;`. -/
def extern_inv_y (front : Int) : Bool := decide (front < 3)

/-- Line 154: `up %= 3;` (the remainder of C, which truncates). -/
def extern_up (up : Int) : Int := Int.tmod up 3

/-- Line 155: `front %= 3;`. -/
def extern_front (front : Int) : Int := Int.tmod front 3

/-- Line 156: `short right = 3 - (up + front);`, on the reduced `up` and `front`. -/
def extern_right (up front : Int) : Int := 3 - (extern_up up + extern_front front)

/-- Lines 157-165: the flag `inv_x`. -/
def extern_inv_x (up front : Int) : Bool :=
  let inv_z := extern_inv_z up
  let inv_y := extern_inv_y front
  let up := extern_up up
  let front := extern_front front
  let inv_x := !(inv_z == inv_y)
  let inv_x := if up < front then !inv_x else inv_x
  let inv_x := if |up - front| = 2 then !inv_x else inv_x
  inv_x

/-- The component selected by `xyz[i]`: `Coord::operator[]` takes an unsigned index and
requires it to be below 3. -/
def Coord.axis (i : Int) : Option (Fin 3) :=
  if h : 0 ≤ i ∧ i < 3 then some ⟨i.toNat, by omega⟩ else none

/-- The variables the sampling loops of `OpenVDB_import_grid_extern` update.  The loop
counters `x`, `y`, `z` are references to components of `xyz`. -/
structure ExternState (T : Type) where
  xyz : Coord
  index : Nat
  data : Nat → T
  max_value : Option T

/-- Initialiser of a sampling loop over component `a`:
`v = inv ? hi - 1 : lo`. -/
def axisInit (inv : Bool) (a : Fin 3) (lo hi : Int) (s : ExternState T) : ExternState T :=
  { s with xyz := Function.update s.xyz a (if inv then hi - 1 else lo) }

/-- Condition of a sampling loop over component `a`:
`inv ? (v >= lo) : (v < hi)`. -/
def axisCond (inv : Bool) (a : Fin 3) (lo hi : Int) (s : ExternState T) : Bool :=
  if inv then decide (s.xyz a ≥ lo) else decide (s.xyz a < hi)

/-- Increment of a sampling loop over component `a`:
`inv ? v -= level : v += level`. -/
def axisStep (inv : Bool) (a : Fin 3) (level : Int) (s : ExternState T) : ExternState T :=
  { s with xyz := Function.update s.xyz a (if inv then s.xyz a - level else s.xyz a + level) }

/-- Lines 187-193, the body of the innermost loop: store the sample, raise `*max_value`
when the pointer is not null and the sample is larger, advance `index`. -/
def extern_store (acc : Tree T) (s : ExternState T) : ExternState T :=
  let data := Function.update s.data s.index (acc.getValue s.xyz)
  let max_value :=
    match s.max_value with
    | some m => if data s.index > m then some (data s.index) else some m
    | none => none
  { xyz := s.xyz, index := s.index + 1, data := data, max_value := max_value }

/-- What a call of `OpenVDB_import_grid_extern` leaves behind: the returned flag, the
buffer `*data`, the content of `*max_value` (`none` for a null pointer), and the number of
samples stored, which is the final value of the local `index` (`0` when the function
returns before the loops). -/
structure ExternResult (T : Type) where
  ret : Bool
  index : Nat
  data : Nat → T
  max_value : Option T

/-- The function `OpenVDB_import_grid_extern<GridType, T>`.  Every loop runs for at most
`fuel - 1` iterations. -/
def OpenVDB_import_grid_extern (GridType : GridClass) (fuel : Nat)
    (reader : OpenVDBReader T) (name : Name) (data : Nat → T)
    (res_min res_max res : Fin 3 → Int) (level : Int) (up front : Int)
    (max_value : Option T) : Option (ExternResult T) :=
  if !reader.hasGrid name then
    (memset_zero data (res 0 * res 1 * res 2)).map fun data =>
      { ret := true, index := 0, data := data, max_value := max_value }
  else
    match reader.getGrid name with
    | none => none
    | some grid_b =>
      if !grid_b.isType GridType then
        some { ret := false, index := 0, data := data, max_value := max_value }
      else
        let acc := grid_b.tree
        let inv_z := extern_inv_z up
        let inv_y := extern_inv_y front
        let inv_x := extern_inv_x up front
        let max_value : Option T :=
          match max_value with
          | some _ => some 0
          | none => none
        match Coord.axis (extern_right up front), Coord.axis (extern_front front),
            Coord.axis (extern_up up) with
        | some right, some front, some up =>
          let s : ExternState T :=
            { xyz := Coord.origin, index := 0, data := data, max_value := max_value }
          let s :=
            forLoop (axisCond inv_z up (res_min 2) (res_max 2)) (axisStep inv_z up level)
              (fun s =>
                forLoop (axisCond inv_y front (res_min 1) (res_max 1))
                  (axisStep inv_y front level)
                  (fun s =>
                    forLoop (axisCond inv_x right (res_min 0) (res_max 0))
                      (axisStep inv_x right level)
                      (fun s => some (extern_store acc s))
                      fuel (axisInit inv_x right (res_min 0) (res_max 0) s))
                  fuel (axisInit inv_y front (res_min 1) (res_max 1) s))
              fuel (axisInit inv_z up (res_min 2) (res_max 2) s)
          s.map fun s =>
            { ret := true, index := s.index, data := s.data, max_value := s.max_value }
        | _, _, _ => none

/-! ## Closed forms used by the proofs -/

/-- The number of samples along one axis as the specification words it:
`ceil((hi - lo) / level)`, and `0` when `hi ≤ lo`. -/
def sampleCount (lo hi level : Int) : Nat :=
  if hi ≤ lo then 0 else Int.toNat ⌈((hi - lo : Int) : ℚ) / (level : ℚ)⌉

/-- The coordinate component of sample number `m` along one axis:
`inv ? hi - 1 - m * level : lo + m * level`. -/
def sampleCoord (inv : Bool) (lo hi level : Int) (m : Nat) : Int :=
  if inv then hi - 1 - m * level else lo + m * level

/-- The coordinate whose component `right` is `x`, whose component `front` is `y` and
whose remaining component is `z`. -/
def axesCoord (right front : Fin 3) (x y z : Int) : Coord :=
  fun a => if a = right then x else if a = front then y else z

/-- The running maximum `*max_value` after `N` samples `V 0 .. V (N - 1)`, starting
from `0`. -/
def maxUpTo (V : Nat → T) : Nat → T
  | 0 => 0
  | N + 1 => if V N > maxUpTo V N then V N else maxUpTo V N

/-- The buffer whose first `N` elements are `V 0 .. V (N - 1)` and whose other elements
are those of `D`. -/
def prefixFill (V D : Nat → T) (N : Nat) : Nat → T :=
  fun p => if p < N then V p else D p

/-- The state of the sampling loops after `N` samples `V 0 .. V (N - 1)` have been stored
into the buffer `D`, with the coordinate at `(x, y, z)` along the axes `right`, `front` and
the remaining one; `M` is `*max_value` on entry. -/
def externAt (V D : Nat → T) (M : Option T) (right front : Fin 3) (x y z : Int) (N : Nat) :
    ExternState T :=
  { xyz := axesCoord right front x y z
    index := N
    data := prefixFill V D N
    max_value := M.map fun _ => maxUpTo V N }

/-- The value the sampling loops of `OpenVDB_import_grid_extern` store at position `p` of
the buffer, for `n0 × n1 × _` samples. -/
def externSeq (acc : Tree T) (right front : Fin 3) (inv_x inv_y inv_z : Bool)
    (res_min res_max : Fin 3 → Int) (level : Int) (n0 n1 : Nat) (p : Nat) : T :=
  acc.getValue (axesCoord right front
    (sampleCoord inv_x (res_min 0) (res_max 0) level (p % n0))
    (sampleCoord inv_y (res_min 1) (res_max 1) level (p / n0 % n1))
    (sampleCoord inv_z (res_min 2) (res_max 2) level (p / n0 / n1)))

/-- The value the copy loops of `OpenVDB_import_grid` store at position `p` of the buffer,
for a box of extent `r0 × r1 × _`. -/
def importSeq (acc : Tree T) (r0 r1 : Nat) (p : Nat) : T :=
  acc.getValue (Coord.mk3 ((p % r0 : Nat) : Int) ((p / r0 % r1 : Nat) : Int)
    ((p / r0 / r1 : Nat) : Int))

end Model

end internal

/-! ## The dial manipulator -/

/-- The C type `float` of the manipulator code, idealised as exact rationals; the
conversion from `int` is then exact. -/
abbrev CFloat := ℚ

/-- The structure `DialInteraction`. -/
structure DialInteraction where
  init_mval : Fin 2 → CFloat
  last_angle : CFloat
  rotations : Int
  deriving DecidableEq

/-- The block `MEM_callocN(sizeof(DialInteraction), ...)` returns, all bytes zero; the
allocation is taken to succeed. -/
def DialInteraction.calloc : DialInteraction :=
  { init_mval := fun _ => 0, last_angle := 0, rotations := 0 }

/-- The part of `wmEvent` the dial reads, `int mval[2]`; `Rest` stands for its other
fields, which are declared in a header that is not part of the sources. -/
structure wmEvent (Rest : Type) where
  mval : Fin 2 → Int
  rest : Rest

/-- The structure `wmManipulator`: the field `interaction_data` (null or pointing to a
`DialInteraction`), and the fields this file reads; `Rest` stands for its other fields,
which are declared in a header that is not part of the sources. -/
structure wmManipulator (Rest : Type) where
  interaction_data : Option DialInteraction
  state : Int
  line_width : CFloat
  origin : Fin 3 → CFloat
  scale : CFloat
  rest : Rest

/-- Modelled from the spec: the operator return values, declared in a header that is not
part of the sources. -/
inductive OperatorStatus where
  | OPERATOR_RUNNING_MODAL
  | OPERATOR_CANCELLED
  | OPERATOR_FINISHED
  | OPERATOR_PASS_THROUGH
  deriving DecidableEq, Repr

/-- The function `manipulator_dial_invoke`: the returned value and the manipulator after
the call.  The context argument is unused. -/
def manipulator_dial_invoke {E R : Type} (event : wmEvent E) (manipulator : wmManipulator R) :
    OperatorStatus × wmManipulator R :=
  let inter := DialInteraction.calloc
  let inter := { inter with init_mval := Function.update inter.init_mval 0 (event.mval 0 : CFloat) }
  let inter := { inter with init_mval := Function.update inter.init_mval 1 (event.mval 1 : CFloat) }
  let manipulator := { manipulator with interaction_data := some inter }
  (OperatorStatus.OPERATOR_RUNNING_MODAL, manipulator)

/-! ## Sample inputs -/

namespace internal

/-- A small grid of class `FloatGrid` with the name `density`. -/
def sampleGrid : GridBase Int :=
  { gridClass := GridClass.FloatGrid
    tree :=
      { background := 0
        voxels := [(Coord.mk3 0 0 0, 5), (Coord.mk3 1 0 0, -3), (Coord.mk3 0 1 0, 11)] }
    name := "density"
    transform := none
    isInWorldSpace := false
    vectorType := VecType.VEC_INVARIANT }

/-- A grid that is `-1` everywhere. -/
def negativeGrid : GridBase Int :=
  { sampleGrid with tree := { background := -1, voxels := [] } }

/-- A reader on a file that holds `sampleGrid` under `density` and nothing else. -/
def sampleReader : OpenVDBReader Int :=
  { grid := fun name => if name = "density" then some sampleGrid else none }

/-- A stand-in for `do_name_versionning` on the sample names. -/
def sampleVersionning (name : Name) : Name :=
  if name = "density_low" then "density low" else name

/-- A dense buffer, `-2, -1, 0, 1, ...`. -/
def sampleData (i : Nat) : Int := (i : Int) - 2

/-- A resolution of `2 x 2 x 1` voxels. -/
def sampleRes : Fin 3 → Int := ![2, 2, 1]

/-- The corner `(0, 0, 0)`. -/
def sampleMin : Fin 3 → Int := fun _ => 0

/-- The corner `(1, 1, 1)`. -/
def sampleUnit : Fin 3 → Int := fun _ => 1

/-- The far corner `(1, 1, 5)` of a box. -/
def aliasedMax : Fin 3 → Int := ![1, 1, 5]

/-- A resolution with a negative component. -/
def negativeRes : Fin 3 → Int := ![-1, 1, 1]

/-- A reader on a file that holds `negativeGrid` under `density`. -/
def negativeReader : OpenVDBReader Int :=
  { grid := fun name => if name = "density" then some negativeGrid else none }

end internal

namespace internal

section Lemmas

variable {T : Type}

/-! ## Index arithmetic of the flat layout -/

theorem decode_x {n0 : Nat} (n1 i j k : Nat) (hi : i < n0) :
    (i + n0 * (j + n1 * k)) % n0 = i := by
  rw [Nat.add_mul_mod_self_left, Nat.mod_eq_of_lt hi]

theorem decode_yz {n0 : Nat} (n1 i j k : Nat) (hi : i < n0) :
    (i + n0 * (j + n1 * k)) / n0 = j + n1 * k := by
  have h0 : 0 < n0 := by omega
  rw [Nat.add_mul_div_left _ _ h0, Nat.div_eq_of_lt hi, Nat.zero_add]

theorem decode_y {n0 n1 : Nat} (i j k : Nat) (hi : i < n0) (hj : j < n1) :
    (i + n0 * (j + n1 * k)) / n0 % n1 = j := by
  rw [decode_yz n1 i j k hi, Nat.add_mul_mod_self_left, Nat.mod_eq_of_lt hj]

theorem decode_z {n0 n1 : Nat} (i j k : Nat) (hi : i < n0) (hj : j < n1) :
    (i + n0 * (j + n1 * k)) / n0 / n1 = k := by
  have h1 : 0 < n1 := by omega
  rw [decode_yz n1 i j k hi, Nat.add_mul_div_left _ _ h1, Nat.div_eq_of_lt hj, Nat.zero_add]

theorem encode_lt {n0 n1 n2 i j k : Nat} (hi : i < n0) (hj : j < n1) (hk : k < n2) :
    i + n0 * (j + n1 * k) < n0 * n1 * n2 := by
  have h1 : j + n1 * k + 1 ≤ n1 * n2 := by
    have : n1 * (k + 1) ≤ n1 * n2 := Nat.mul_le_mul_left n1 hk
    rw [Nat.mul_add, Nat.mul_one] at this
    omega
  have h2 : n0 * (j + n1 * k + 1) ≤ n0 * (n1 * n2) := Nat.mul_le_mul_left n0 h1
  rw [Nat.mul_add, Nat.mul_one] at h2
  rw [Nat.mul_assoc]
  omega

theorem decode_encode {n0 n1 n2 p : Nat} (hp : p < n0 * n1 * n2) :
    p % n0 < n0 ∧ p / n0 % n1 < n1 ∧ p / n0 / n1 < n2 ∧
      p = p % n0 + n0 * (p / n0 % n1 + n1 * (p / n0 / n1)) := by
  have h0 : 0 < n0 := by
    rcases Nat.eq_zero_or_pos n0 with h | h
    · subst h; simp at hp
    · exact h
  have h1 : 0 < n1 := by
    rcases Nat.eq_zero_or_pos n1 with h | h
    · subst h; simp at hp
    · exact h
  refine ⟨Nat.mod_lt _ h0, Nat.mod_lt _ h1, ?_, ?_⟩
  · rw [Nat.div_div_eq_div_mul]
    exact Nat.div_lt_of_lt_mul hp
  · rw [Nat.mod_add_div, Nat.mod_add_div]

/-! ## Buffers filled from the front -/

theorem prefixFill_zero (V D : Nat → T) : prefixFill V D 0 = D := by
  funext p; simp [prefixFill]

theorem prefixFill_update (V D : Nat → T) (N : Nat) (v : T) (hv : v = V N) :
    Function.update (prefixFill V D N) N v = prefixFill V D (N + 1) := by
  funext p
  subst hv
  by_cases h : p = N
  · subst h; simp [prefixFill]
  · rw [Function.update_noteq h]
    simp only [prefixFill]
    by_cases h2 : p < N
    · have : p < N + 1 := by omega
      simp [h2, this]
    · have : ¬ p < N + 1 := by omega
      simp [h2, this]

/-! ## The counting loop -/

theorem forCount_run {S : Type} (hi : Int) (body : Int → S → S) (n : Nat) :
    ∀ (v : Int) (st : Nat → S), n = (hi - v).toNat →
      (∀ m, m < n → body (v + m) (st m) = st (m + 1)) →
      forCount hi body v (st 0) = st n := by
  induction n with
  | zero =>
    intro v st hn _
    rw [forCount]
    have : ¬ v < hi := by omega
    simp [this]
  | succ n ih =>
    intro v st hn hstep
    rw [forCount]
    have hlt : v < hi := by omega
    simp only [hlt, if_true]
    have h0 := hstep 0 (by omega)
    simp only [Nat.cast_zero, add_zero, Nat.zero_add] at h0
    rw [h0]
    have := ih (v + 1) (fun m => st (m + 1)) (by omega) (by
      intro m hm
      have e : v + 1 + (m : Int) = v + ((m + 1 : Nat) : Int) := by push_cast; ring
      rw [e]
      exact hstep (m + 1) (by omega))
    simpa using this

end Lemmas

end internal

namespace internal

section ImportLemmas

variable {T : Type} [LinearOrderedRing T]

theorem importSeq_encode (acc : Tree T) {r0 r1 : Nat} (i j k : Nat) (hi : i < r0)
    (hj : j < r1) :
    importSeq acc r0 r1 (i + r0 * (j + r1 * k)) = acc.getValue (Coord.mk3 i j k) := by
  unfold importSeq
  rw [decode_x r1 i j k hi, decode_y i j k hi hj, decode_z i j k hi hj]

theorem import_loop_x (acc : Tree T) (D : Nat → T) (res0 : Int) (r1 j k : Nat)
    (hj : j < r1) :
    forCount res0 (fun x (s : ImportState T) =>
        { index := s.index + 1
          data := Function.update s.data s.index
            (acc.getValue (Coord.mk3 x (j : Int) (k : Int))) })
      0 { index := res0.toNat * (j + r1 * k),
          data := prefixFill (importSeq acc res0.toNat r1) D (res0.toNat * (j + r1 * k)) }
    = { index := res0.toNat * (j + 1 + r1 * k),
        data := prefixFill (importSeq acc res0.toNat r1) D (res0.toNat * (j + 1 + r1 * k)) } := by
  have h := forCount_run res0 (fun x (s : ImportState T) =>
        { index := s.index + 1
          data := Function.update s.data s.index
            (acc.getValue (Coord.mk3 x (j : Int) (k : Int))) }) res0.toNat 0
      (fun m => { index := m + res0.toNat * (j + r1 * k),
                  data := prefixFill (importSeq acc res0.toNat r1) D
                    (m + res0.toNat * (j + r1 * k)) })
      (by simp) (by
        intro m hm
        simp only [zero_add]
        rw [prefixFill_update _ _ _ _ (importSeq_encode acc m j k hm hj).symm]
        have e : m + res0.toNat * (j + r1 * k) + 1 = m + 1 + res0.toNat * (j + r1 * k) := by
          ring
        rw [e])
  simp only [Nat.zero_add] at h
  rw [h]
  have e : res0.toNat + res0.toNat * (j + r1 * k) = res0.toNat * (j + 1 + r1 * k) := by ring
  rw [e]

theorem import_loop_y (acc : Tree T) (D : Nat → T) (res0 res1 : Int) (k : Nat) :
    forCount res1 (fun y (s : ImportState T) =>
        forCount res0 (fun x (s : ImportState T) =>
          { index := s.index + 1
            data := Function.update s.data s.index
              (acc.getValue (Coord.mk3 x y (k : Int))) }) 0 s)
      0 { index := res0.toNat * (res1.toNat * k),
          data := prefixFill (importSeq acc res0.toNat res1.toNat) D
            (res0.toNat * (res1.toNat * k)) }
    = { index := res0.toNat * (res1.toNat * (k + 1)),
        data := prefixFill (importSeq acc res0.toNat res1.toNat) D
          (res0.toNat * (res1.toNat * (k + 1))) } := by
  have h := forCount_run res1 (fun y (s : ImportState T) =>
        forCount res0 (fun x (s : ImportState T) =>
          { index := s.index + 1
            data := Function.update s.data s.index
              (acc.getValue (Coord.mk3 x y (k : Int))) }) 0 s) res1.toNat 0
      (fun m => { index := res0.toNat * (m + res1.toNat * k),
                  data := prefixFill (importSeq acc res0.toNat res1.toNat) D
                    (res0.toNat * (m + res1.toNat * k)) })
      (by simp) (by
        intro m hm
        simp only [zero_add]
        exact import_loop_x acc D res0 res1.toNat m k hm)
  simp only [Nat.zero_add] at h
  rw [h]
  have e : res1.toNat + res1.toNat * k = res1.toNat * (k + 1) := by ring
  rw [e]

theorem import_loop_z (acc : Tree T) (D : Nat → T) (res0 res1 res2 : Int) :
    forCount res2 (fun z (s : ImportState T) =>
        forCount res1 (fun y (s : ImportState T) =>
          forCount res0 (fun x (s : ImportState T) =>
            { index := s.index + 1
              data := Function.update s.data s.index
                (acc.getValue (Coord.mk3 x y z)) }) 0 s) 0 s)
      0 { index := 0, data := D }
    = { index := res0.toNat * res1.toNat * res2.toNat,
        data := prefixFill (importSeq acc res0.toNat res1.toNat) D
          (res0.toNat * res1.toNat * res2.toNat) } := by
  have h := forCount_run res2 (fun z (s : ImportState T) =>
        forCount res1 (fun y (s : ImportState T) =>
          forCount res0 (fun x (s : ImportState T) =>
            { index := s.index + 1
              data := Function.update s.data s.index
                (acc.getValue (Coord.mk3 x y z)) }) 0 s) 0 s) res2.toNat 0
      (fun m => { index := res0.toNat * (res1.toNat * m),
                  data := prefixFill (importSeq acc res0.toNat res1.toNat) D
                    (res0.toNat * (res1.toNat * m)) })
      (by simp) (by
        intro m _
        simp only [zero_add]
        exact import_loop_y acc D res0 res1 m)
  simp only [Nat.mul_zero, prefixFill_zero] at h
  rw [h, Nat.mul_assoc]

/-- Closed form of the copy part of `OpenVDB_import_grid` on a grid of the right class. -/
theorem import_copy_eq (GridType : GridClass) (g : GridBase T) (hg : g.gridClass = GridType)
    (data : Nat → T) (res : Fin 3 → Int) :
    OpenVDB_import_grid_copy GridType (some g) data res
      = some (prefixFill (importSeq g.tree (res 0).toNat (res 1).toNat) data
          ((res 0).toNat * (res 1).toNat * (res 2).toNat)) := by
  unfold OpenVDB_import_grid_copy
  simp only [gridPtrCast, GridBase.isType, hg, decide_True, if_true]
  rw [import_loop_z]

end ImportLemmas

end internal


namespace internal

section ExternLemmas

variable {T : Type} [LinearOrderedRing T]

/-! ## The fuel-indexed loop -/

theorem forLoop_inv {S : Type} (cond : S → Bool) (step : S → S) (body : S → Option S)
    (I : Nat → S → Prop) (n : Nat)
    (hbody : ∀ m s, m < n → I m s →
      cond s = true ∧ ∃ s', body s = some s' ∧ I (m + 1) (step s'))
    (hexit : ∀ s, I n s → cond s = false) :
    ∀ (k m fuel : Nat) (s : S), m + k = n → k < fuel → I m s →
      ∃ s', forLoop cond step body fuel s = some s' ∧ I n s' := by
  intro k
  induction k with
  | zero =>
    intro m fuel s hm hf hI
    have hmn : m = n := by omega
    subst hmn
    obtain ⟨f, rfl⟩ : ∃ f, fuel = f + 1 := ⟨fuel - 1, by omega⟩
    refine ⟨s, ?_, hI⟩
    simp [forLoop, hexit s hI]
  | succ k ih =>
    intro m fuel s hm hf hI
    obtain ⟨f, rfl⟩ : ∃ f, fuel = f + 1 := ⟨fuel - 1, by omega⟩
    obtain ⟨hc, s', hb, hI'⟩ := hbody m s (by omega) hI
    obtain ⟨s'', hs'', hI''⟩ := ih (m + 1) f (step s') (by omega) (by omega) hI'
    refine ⟨s'', ?_, hI''⟩
    simp [forLoop, hc, hb, hs'']

/-- A loop whose condition stays true and whose body leaves it true never ends: it has
no result, whatever the fuel. -/
theorem forLoop_diverges {S : Type} (cond : S → Bool) (step : S → S) (body : S → Option S)
    (I : S → Prop) (hcond : ∀ s, I s → cond s = true)
    (hbody : ∀ s s', I s → body s = some s' → I (step s')) :
    ∀ (fuel : Nat) (s : S), I s → forLoop cond step body fuel s = none := by
  intro fuel
  induction fuel with
  | zero => intro s _; rfl
  | succ f ih =>
    intro s hI
    rw [forLoop]
    simp only [hcond s hI, if_true]
    cases hb : body s with
    | none => rfl
    | some s' => exact ih (step s') (hbody s s' hI hb)

/-! ## Sample counts -/

theorem lt_sampleCount (lo hi level : Int) (hl : 1 ≤ level) (m : Nat) :
    m < sampleCount lo hi level ↔ (m : Int) * level < hi - lo := by
  unfold sampleCount
  have hm : (0 : Int) ≤ (m : Int) * level := mul_nonneg (Int.ofNat_nonneg m) (by omega)
  by_cases h : hi ≤ lo
  · simp only [h, if_true]
    constructor
    · intro h1; omega
    · intro h1; omega
  · simp only [h, if_false]
    have hlq : (0 : ℚ) < (level : ℚ) := by exact_mod_cast (by omega : (0 : Int) < level)
    rw [Int.lt_toNat, Int.lt_ceil, lt_div_iff₀ hlq]
    constructor
    · intro h1; exact_mod_cast h1
    · intro h1; exact_mod_cast h1

/-- The sample count in integer arithmetic. -/
theorem sampleCount_eq_div (lo hi level : Int) (hl : 1 ≤ level) :
    sampleCount lo hi level = ((hi - lo + level - 1) / level).toNat := by
  have key : ∀ m : Nat, m < sampleCount lo hi level
      ↔ m < ((hi - lo + level - 1) / level).toNat := by
    intro m
    rw [lt_sampleCount lo hi level hl m, Int.lt_toNat]
    have e : (m : Int) < (hi - lo + level - 1) / level
        ↔ ((m : Int) + 1) * level ≤ hi - lo + level - 1 := by
      rw [Int.lt_iff_add_one_le, Int.le_ediv_iff_mul_le (by omega)]
    rw [e]
    constructor
    · intro h; linarith
    · intro h; linarith
  apply le_antisymm
  · by_contra hc
    have := (key ((hi - lo + level - 1) / level).toNat).mp (not_le.mp hc)
    omega
  · by_contra hc
    have := (key (sampleCount lo hi level)).mpr (not_le.mp hc)
    omega

theorem axisCond_sample (inv : Bool) (a : Fin 3) (lo hi level : Int) (hl : 1 ≤ level)
    (m : Nat) (s : ExternState T) (hs : s.xyz a = sampleCoord inv lo hi level m) :
    axisCond inv a lo hi s = decide (m < sampleCount lo hi level) := by
  unfold axisCond
  rw [hs]
  have h := lt_sampleCount lo hi level hl m
  cases inv with
  | true =>
    simp only [sampleCoord, if_true]
    rw [decide_eq_decide, h]
    constructor
    · intro h1; linarith
    · intro h1; linarith
  | false =>
    simp only [sampleCoord, Bool.false_eq_true, if_false]
    rw [decide_eq_decide, h]
    constructor
    · intro h1; linarith
    · intro h1; linarith

theorem sampleCoord_step (inv : Bool) (lo hi level : Int) (m : Nat) :
    (if inv then sampleCoord inv lo hi level m - level
      else sampleCoord inv lo hi level m + level) = sampleCoord inv lo hi level (m + 1) := by
  cases inv with
  | true => simp only [sampleCoord, if_true]; push_cast; ring
  | false => simp only [sampleCoord, Bool.false_eq_true, if_false]; push_cast; ring

theorem sampleCoord_init (inv : Bool) (lo hi level : Int) :
    (if inv then hi - 1 else lo) = sampleCoord inv lo hi level 0 := by
  cases inv <;> simp [sampleCoord]

/-! ## Coordinates addressed through the three axes -/

theorem axes_cover : ∀ right front up a : Fin 3, right ≠ front → right ≠ up → front ≠ up →
    a ≠ right → a ≠ front → a = up := by
  intro right front up a h0 h1 h2 h3 h4
  rw [Ne, Fin.ext_iff] at h0 h1 h2 h3 h4
  rw [Fin.ext_iff]
  omega

theorem axesCoord_right (right front : Fin 3) (x y z : Int) :
    axesCoord right front x y z right = x := by
  simp [axesCoord]

theorem axesCoord_front (right front : Fin 3) (h : right ≠ front) (x y z : Int) :
    axesCoord right front x y z front = y := by
  simp [axesCoord, Ne.symm h]

theorem axesCoord_up (right front up : Fin 3) (h1 : right ≠ up) (h2 : front ≠ up)
    (x y z : Int) : axesCoord right front x y z up = z := by
  simp [axesCoord, Ne.symm h1, Ne.symm h2]

theorem update_axesCoord_right (right front : Fin 3) (x y z v : Int) :
    Function.update (axesCoord right front x y z) right v = axesCoord right front v y z := by
  funext a
  by_cases h : a = right
  · subst h; simp [axesCoord]
  · simp [axesCoord, Function.update_noteq h, h]

theorem update_axesCoord_front (right front : Fin 3) (h : right ≠ front) (x y z v : Int) :
    Function.update (axesCoord right front x y z) front v = axesCoord right front x v z := by
  funext a
  by_cases h1 : a = front
  · subst h1; simp [axesCoord, Ne.symm h]
  · by_cases h2 : a = right
    · subst h2; simp [axesCoord, Function.update_noteq h1]
    · simp [axesCoord, Function.update_noteq h1, h1, h2]

theorem update_axesCoord_up (right front up : Fin 3) (h0 : right ≠ front) (h1 : right ≠ up)
    (h2 : front ≠ up) (x y z v : Int) :
    Function.update (axesCoord right front x y z) up v = axesCoord right front x y v := by
  funext a
  by_cases h : a = up
  · subst h; simp [axesCoord, Ne.symm h1, Ne.symm h2]
  · have hne : a = right ∨ a = front := by
      by_contra hc
      push_neg at hc
      exact h (axes_cover right front up a h0 h1 h2 hc.1 hc.2)
    rcases hne with hr | hf
    · subst hr; simp [axesCoord, Function.update_noteq h]
    · subst hf; simp [axesCoord, Function.update_noteq h]

theorem coord_eq_axesCoord (right front up : Fin 3) (h0 : right ≠ front) (h1 : right ≠ up)
    (h2 : front ≠ up) (c : Coord) :
    c = axesCoord right front (c right) (c front) (c up) := by
  funext a
  by_cases hr : a = right
  · subst hr; simp [axesCoord]
  · by_cases hf : a = front
    · subst hf; simp [axesCoord, hr]
    · have := axes_cover right front up a h0 h1 h2 hr hf
      subst this
      simp [axesCoord, hr, hf]

end ExternLemmas

end internal

namespace internal

section ExternLoops

variable {T : Type} [LinearOrderedRing T]

theorem extern_store_at (acc : Tree T) (V D : Nat → T) (M : Option T) (right front : Fin 3)
    (x y z : Int) (N : Nat) (hV : acc.getValue (axesCoord right front x y z) = V N) :
    extern_store acc (externAt V D M right front x y z N)
      = externAt V D M right front x y z (N + 1) := by
  unfold extern_store externAt
  simp only [hV, Function.update_same]
  rw [prefixFill_update V D N (V N) rfl]
  cases M with
  | none => rfl
  | some m =>
    simp only [Option.map_some', maxUpTo]
    split <;> rfl

theorem axisInit_right (V D : Nat → T) (M : Option T) (right front : Fin 3) (inv : Bool)
    (lo hi level : Int) (x y z : Int) (N : Nat) :
    axisInit inv right lo hi (externAt V D M right front x y z N)
      = externAt V D M right front (sampleCoord inv lo hi level 0) y z N := by
  simp only [axisInit, externAt, update_axesCoord_right, sampleCoord_init inv lo hi level]

theorem axisStep_right (V D : Nat → T) (M : Option T) (right front : Fin 3) (inv : Bool)
    (lo hi level : Int) (m : Nat) (y z : Int) (N : Nat) :
    axisStep inv right level (externAt V D M right front (sampleCoord inv lo hi level m) y z N)
      = externAt V D M right front (sampleCoord inv lo hi level (m + 1)) y z N := by
  simp only [axisStep, externAt, update_axesCoord_right, axesCoord_right,
    sampleCoord_step inv lo hi level m]

theorem axisInit_front (V D : Nat → T) (M : Option T) (right front : Fin 3)
    (h0 : right ≠ front) (inv : Bool) (lo hi level : Int) (x y z : Int) (N : Nat) :
    axisInit inv front lo hi (externAt V D M right front x y z N)
      = externAt V D M right front x (sampleCoord inv lo hi level 0) z N := by
  simp only [axisInit, externAt, update_axesCoord_front right front h0,
    sampleCoord_init inv lo hi level]

theorem axisStep_front (V D : Nat → T) (M : Option T) (right front : Fin 3)
    (h0 : right ≠ front) (inv : Bool) (lo hi level : Int) (m : Nat) (x z : Int) (N : Nat) :
    axisStep inv front level (externAt V D M right front x (sampleCoord inv lo hi level m) z N)
      = externAt V D M right front x (sampleCoord inv lo hi level (m + 1)) z N := by
  simp only [axisStep, externAt, update_axesCoord_front right front h0,
    axesCoord_front right front h0, sampleCoord_step inv lo hi level m]

theorem axisInit_up (V D : Nat → T) (M : Option T) (right front up : Fin 3)
    (h0 : right ≠ front) (h1 : right ≠ up) (h2 : front ≠ up) (inv : Bool)
    (lo hi level : Int) (x y z : Int) (N : Nat) :
    axisInit inv up lo hi (externAt V D M right front x y z N)
      = externAt V D M right front x y (sampleCoord inv lo hi level 0) N := by
  simp only [axisInit, externAt, update_axesCoord_up right front up h0 h1 h2,
    sampleCoord_init inv lo hi level]

theorem axisStep_up (V D : Nat → T) (M : Option T) (right front up : Fin 3)
    (h0 : right ≠ front) (h1 : right ≠ up) (h2 : front ≠ up) (inv : Bool)
    (lo hi level : Int) (m : Nat) (x y : Int) (N : Nat) :
    axisStep inv up level (externAt V D M right front x y (sampleCoord inv lo hi level m) N)
      = externAt V D M right front x y (sampleCoord inv lo hi level (m + 1)) N := by
  simp only [axisStep, externAt, update_axesCoord_up right front up h0 h1 h2,
    axesCoord_up right front up h1 h2, sampleCoord_step inv lo hi level m]

/-- The innermost loop stores one row of samples. -/
theorem extern_loop_x (acc : Tree T) (V D : Nat → T) (M : Option T) (right front : Fin 3)
    (inv : Bool) (lo hi level : Int) (hl : 1 ≤ level) (y z : Int) (base : Nat)
    (hV : ∀ m, m < sampleCount lo hi level →
      acc.getValue (axesCoord right front (sampleCoord inv lo hi level m) y z) = V (m + base))
    (fuel : Nat) (hf : sampleCount lo hi level < fuel) (x : Int) :
    forLoop (axisCond inv right lo hi) (axisStep inv right level)
        (fun s => some (extern_store acc s)) fuel
        (axisInit inv right lo hi (externAt V D M right front x y z base))
      = some (externAt V D M right front
          (sampleCoord inv lo hi level (sampleCount lo hi level)) y z
          (sampleCount lo hi level + base)) := by
  have key := forLoop_inv (axisCond inv right lo hi) (axisStep inv right level)
    (fun s => some (extern_store acc s))
    (fun m s => s = externAt V D M right front (sampleCoord inv lo hi level m) y z (m + base))
    (sampleCount lo hi level)
    (by
      intro m s hm hs
      subst hs
      refine ⟨?_, _, rfl, ?_⟩
      · rw [axisCond_sample inv right lo hi level hl m _ (axesCoord_right _ _ _ _ _)]
        simpa using hm
      · rw [extern_store_at acc V D M right front _ y z (m + base) (hV m hm),
          axisStep_right]
        have e : m + base + 1 = m + 1 + base := by omega
        rw [e])
    (by
      intro s hs
      subst hs
      rw [axisCond_sample inv right lo hi level hl _ _ (axesCoord_right _ _ _ _ _)]
      simp)
    (sampleCount lo hi level) 0 fuel
    (axisInit inv right lo hi (externAt V D M right front x y z base))
    (by omega) hf
    (by
      show _ = _
      rw [axisInit_right V D M right front inv lo hi level, Nat.zero_add])
  obtain ⟨s', hs', hI⟩ := key
  rw [hs', hI]

/-- The middle loop stores one slice of samples. -/
theorem extern_loop_y (acc : Tree T) (V D : Nat → T) (M : Option T) (right front : Fin 3)
    (h0 : right ≠ front) (inv_x inv_y : Bool) (lo0 hi0 lo1 hi1 level : Int) (hl : 1 ≤ level)
    (z : Int) (base : Nat)
    (hV : ∀ j m, j < sampleCount lo1 hi1 level → m < sampleCount lo0 hi0 level →
      acc.getValue (axesCoord right front (sampleCoord inv_x lo0 hi0 level m)
        (sampleCoord inv_y lo1 hi1 level j) z)
      = V (m + (sampleCount lo0 hi0 level * j + base)))
    (fuel : Nat) (hf0 : sampleCount lo0 hi0 level < fuel)
    (hf1 : sampleCount lo1 hi1 level < fuel) (x y : Int) :
    ∃ x', forLoop (axisCond inv_y front lo1 hi1) (axisStep inv_y front level)
        (fun s =>
          forLoop (axisCond inv_x right lo0 hi0) (axisStep inv_x right level)
            (fun s => some (extern_store acc s)) fuel (axisInit inv_x right lo0 hi0 s))
        fuel (axisInit inv_y front lo1 hi1 (externAt V D M right front x y z base))
      = some (externAt V D M right front x'
          (sampleCoord inv_y lo1 hi1 level (sampleCount lo1 hi1 level)) z
          (sampleCount lo0 hi0 level * sampleCount lo1 hi1 level + base)) := by
  have key := forLoop_inv (axisCond inv_y front lo1 hi1) (axisStep inv_y front level)
    (fun s =>
      forLoop (axisCond inv_x right lo0 hi0) (axisStep inv_x right level)
        (fun s => some (extern_store acc s)) fuel (axisInit inv_x right lo0 hi0 s))
    (fun j s => ∃ x', s = externAt V D M right front x' (sampleCoord inv_y lo1 hi1 level j) z
      (sampleCount lo0 hi0 level * j + base))
    (sampleCount lo1 hi1 level)
    (by
      intro j s hj hs
      obtain ⟨x', rfl⟩ := hs
      refine ⟨?_, _, extern_loop_x acc V D M right front inv_x lo0 hi0 level hl
        (sampleCoord inv_y lo1 hi1 level j) z
        (sampleCount lo0 hi0 level * j + base) (fun m hm => hV j m hj hm) fuel hf0 x', ?_⟩
      · rw [axisCond_sample inv_y front lo1 hi1 level hl j _
          (axesCoord_front right front h0 _ _ _)]
        simpa using hj
      · refine ⟨sampleCoord inv_x lo0 hi0 level (sampleCount lo0 hi0 level), ?_⟩
        rw [axisStep_front V D M right front h0]
        have e : sampleCount lo0 hi0 level + (sampleCount lo0 hi0 level * j + base)
            = sampleCount lo0 hi0 level * (j + 1) + base := by ring
        rw [e])
    (by
      intro s hs
      obtain ⟨x', rfl⟩ := hs
      rw [axisCond_sample inv_y front lo1 hi1 level hl _ _
        (axesCoord_front right front h0 _ _ _)]
      simp)
    (sampleCount lo1 hi1 level) 0 fuel
    (axisInit inv_y front lo1 hi1 (externAt V D M right front x y z base))
    (by omega) hf1
    (by
      refine ⟨x, ?_⟩
      rw [axisInit_front V D M right front h0 inv_y lo1 hi1 level, Nat.mul_zero,
        Nat.zero_add])
  obtain ⟨s', hs', x', hI⟩ := key
  exact ⟨x', by rw [hs', hI]⟩

/-- The outer loop stores all samples. -/
theorem extern_loop_z (acc : Tree T) (V D : Nat → T) (M : Option T) (right front up : Fin 3)
    (h0 : right ≠ front) (h1 : right ≠ up) (h2 : front ≠ up) (inv_x inv_y inv_z : Bool)
    (lo0 hi0 lo1 hi1 lo2 hi2 level : Int) (hl : 1 ≤ level)
    (hV : ∀ k j m, k < sampleCount lo2 hi2 level → j < sampleCount lo1 hi1 level →
      m < sampleCount lo0 hi0 level →
      acc.getValue (axesCoord right front (sampleCoord inv_x lo0 hi0 level m)
        (sampleCoord inv_y lo1 hi1 level j) (sampleCoord inv_z lo2 hi2 level k))
      = V (m + sampleCount lo0 hi0 level * (j + sampleCount lo1 hi1 level * k)))
    (fuel : Nat) (hf0 : sampleCount lo0 hi0 level < fuel)
    (hf1 : sampleCount lo1 hi1 level < fuel) (hf2 : sampleCount lo2 hi2 level < fuel)
    (x y z : Int) :
    ∃ x' y', forLoop (axisCond inv_z up lo2 hi2) (axisStep inv_z up level)
        (fun s =>
          forLoop (axisCond inv_y front lo1 hi1) (axisStep inv_y front level)
            (fun s =>
              forLoop (axisCond inv_x right lo0 hi0) (axisStep inv_x right level)
                (fun s => some (extern_store acc s)) fuel (axisInit inv_x right lo0 hi0 s))
            fuel (axisInit inv_y front lo1 hi1 s))
        fuel (axisInit inv_z up lo2 hi2 (externAt V D M right front x y z 0))
      = some (externAt V D M right front x' y'
          (sampleCoord inv_z lo2 hi2 level (sampleCount lo2 hi2 level))
          (sampleCount lo0 hi0 level * sampleCount lo1 hi1 level * sampleCount lo2 hi2 level)) := by
  have key := forLoop_inv (axisCond inv_z up lo2 hi2) (axisStep inv_z up level)
    (fun s =>
      forLoop (axisCond inv_y front lo1 hi1) (axisStep inv_y front level)
        (fun s =>
          forLoop (axisCond inv_x right lo0 hi0) (axisStep inv_x right level)
            (fun s => some (extern_store acc s)) fuel (axisInit inv_x right lo0 hi0 s))
        fuel (axisInit inv_y front lo1 hi1 s))
    (fun k s => ∃ x' y', s = externAt V D M right front x' y'
      (sampleCoord inv_z lo2 hi2 level k)
      (sampleCount lo0 hi0 level * sampleCount lo1 hi1 level * k))
    (sampleCount lo2 hi2 level)
    (by
      intro k s hk hs
      obtain ⟨x', y', rfl⟩ := hs
      obtain ⟨x'', hx''⟩ := extern_loop_y acc V D M right front h0 inv_x inv_y lo0 hi0 lo1 hi1
        level hl (sampleCoord inv_z lo2 hi2 level k)
        (sampleCount lo0 hi0 level * sampleCount lo1 hi1 level * k)
        (by
          intro j m hj hm
          rw [hV k j m hk hj hm]
          congr 1
          ring)
        fuel hf0 hf1 x' y'
      refine ⟨?_, _, hx'', ?_⟩
      · rw [axisCond_sample inv_z up lo2 hi2 level hl k _
          (axesCoord_up right front up h1 h2 _ _ _)]
        simpa using hk
      · refine ⟨x'', sampleCoord inv_y lo1 hi1 level (sampleCount lo1 hi1 level), ?_⟩
        rw [axisStep_up V D M right front up h0 h1 h2]
        have e : sampleCount lo0 hi0 level * sampleCount lo1 hi1 level
              + sampleCount lo0 hi0 level * sampleCount lo1 hi1 level * k
            = sampleCount lo0 hi0 level * sampleCount lo1 hi1 level * (k + 1) := by ring
        rw [e])
    (by
      intro s hs
      obtain ⟨x', y', rfl⟩ := hs
      rw [axisCond_sample inv_z up lo2 hi2 level hl _ _
        (axesCoord_up right front up h1 h2 _ _ _)]
      simp)
    (sampleCount lo2 hi2 level) 0 fuel
    (axisInit inv_z up lo2 hi2 (externAt V D M right front x y z 0))
    (by omega) hf2
    (by
      refine ⟨x, y, ?_⟩
      rw [axisInit_up V D M right front up h0 h1 h2 inv_z lo2 hi2 level, Nat.mul_zero])
  obtain ⟨s', hs', x', y', hI⟩ := key
  exact ⟨x', y', by rw [hs', hI]⟩

end ExternLoops

end internal

namespace internal

section ExternClosedForm

variable {T : Type} [LinearOrderedRing T]

theorem origin_eq_axesCoord (right front : Fin 3) :
    Coord.origin = axesCoord right front 0 0 0 := by
  funext a
  simp [Coord.origin, axesCoord]

/-- For `up`, `front` in `0..5` on different axes, the three coordinate components the
function addresses are valid and pairwise different; they are `3 - (up mod 3 + front mod 3)`,
`front mod 3` and `up mod 3`. -/
theorem extern_axes_valid (up front : Int) (hu0 : 0 ≤ up) (hu5 : up ≤ 5) (hf0 : 0 ≤ front)
    (hf5 : front ≤ 5) (hne : up % 3 ≠ front % 3) :
    ∃ r f u : Fin 3, Coord.axis (extern_right up front) = some r ∧
      Coord.axis (extern_front front) = some f ∧ Coord.axis (extern_up up) = some u ∧
      r ≠ f ∧ r ≠ u ∧ f ≠ u ∧
      ((r : Nat) : Int) = 3 - (up % 3 + front % 3) ∧ ((f : Nat) : Int) = front % 3 ∧
      ((u : Nat) : Int) = up % 3 := by
  interval_cases up <;> interval_cases front <;> first
    | exact absurd rfl hne
    | exact ⟨_, _, _, rfl, rfl, rfl, by decide, by decide, by decide, by decide, by decide,
        by decide⟩

/-- Closed form of a call of `OpenVDB_import_grid_extern` that finds a grid of the right
class and samples it along valid axes with a positive step. -/
theorem extern_eq (GridType : GridClass) (reader : OpenVDBReader T) (name : Name)
    (g : GridBase T) (hg : reader.getGrid name = some g) (hty : g.gridClass = GridType)
    (data : Nat → T) (res_min res_max res : Fin 3 → Int) (level : Int) (hl : 1 ≤ level)
    (up front : Int) (r f u : Fin 3)
    (hr : Coord.axis (extern_right up front) = some r)
    (hf : Coord.axis (extern_front front) = some f)
    (hu : Coord.axis (extern_up up) = some u)
    (h0 : r ≠ f) (h1 : r ≠ u) (h2 : f ≠ u) (max_value : Option T) (fuel : Nat)
    (hfuel0 : sampleCount (res_min 0) (res_max 0) level < fuel)
    (hfuel1 : sampleCount (res_min 1) (res_max 1) level < fuel)
    (hfuel2 : sampleCount (res_min 2) (res_max 2) level < fuel) :
    OpenVDB_import_grid_extern GridType fuel reader name data res_min res_max res level
        up front max_value
      = some
        { ret := true
          index := sampleCount (res_min 0) (res_max 0) level
            * sampleCount (res_min 1) (res_max 1) level
            * sampleCount (res_min 2) (res_max 2) level
          data := prefixFill
            (externSeq g.tree r f (extern_inv_x up front) (extern_inv_y front)
              (extern_inv_z up) res_min res_max level
              (sampleCount (res_min 0) (res_max 0) level)
              (sampleCount (res_min 1) (res_max 1) level))
            data
            (sampleCount (res_min 0) (res_max 0) level
              * sampleCount (res_min 1) (res_max 1) level
              * sampleCount (res_min 2) (res_max 2) level)
          max_value := max_value.map fun _ => maxUpTo
            (externSeq g.tree r f (extern_inv_x up front) (extern_inv_y front)
              (extern_inv_z up) res_min res_max level
              (sampleCount (res_min 0) (res_max 0) level)
              (sampleCount (res_min 1) (res_max 1) level))
            (sampleCount (res_min 0) (res_max 0) level
              * sampleCount (res_min 1) (res_max 1) level
              * sampleCount (res_min 2) (res_max 2) level) } := by
  have hg' : reader.grid name = some g := hg
  have hinit :
      ExternState.mk Coord.origin 0 data
        (match max_value with
          | some _ => some 0
          | none => none)
      = externAt
          (externSeq g.tree r f (extern_inv_x up front) (extern_inv_y front)
            (extern_inv_z up) res_min res_max level
            (sampleCount (res_min 0) (res_max 0) level)
            (sampleCount (res_min 1) (res_max 1) level))
          data max_value r f 0 0 0 0 := by
    unfold externAt
    rw [prefixFill_zero, ← origin_eq_axesCoord]
    cases max_value <;> rfl
  obtain ⟨x', y', hz⟩ := extern_loop_z g.tree
    (externSeq g.tree r f (extern_inv_x up front) (extern_inv_y front)
      (extern_inv_z up) res_min res_max level
      (sampleCount (res_min 0) (res_max 0) level)
      (sampleCount (res_min 1) (res_max 1) level))
    data max_value r f u h0 h1 h2 (extern_inv_x up front) (extern_inv_y front)
    (extern_inv_z up) (res_min 0) (res_max 0) (res_min 1) (res_max 1) (res_min 2) (res_max 2)
    level hl
    (by
      intro k j m _ hj hm
      unfold externSeq
      rw [decode_x _ m j k hm, decode_y m j k hm hj, decode_z m j k hm hj])
    fuel hfuel0 hfuel1 hfuel2 0 0 0
  unfold OpenVDB_import_grid_extern
  simp only [OpenVDBReader.hasGrid, OpenVDBReader.getGrid, hg', Option.isSome_some,
    Bool.not_true, Bool.false_eq_true, if_false, GridBase.isType, hty, decide_True, hr, hf, hu]
  rw [hinit, hz]
  rfl

end ExternClosedForm

end internal

namespace internal

section MaxLemmas

variable {T : Type} [LinearOrderedRing T]

theorem maxUpTo_nonneg (V : Nat → T) (N : Nat) : 0 ≤ maxUpTo V N := by
  induction N with
  | zero => exact le_refl _
  | succ N ih =>
    rw [maxUpTo]
    split
    · rename_i h; exact le_trans ih (le_of_lt h)
    · exact ih

theorem maxUpTo_mono (V : Nat → T) (N : Nat) : maxUpTo V N ≤ maxUpTo V (N + 1) := by
  rw [maxUpTo]
  split
  · rename_i h; exact le_of_lt h
  · exact le_refl _

theorem maxUpTo_ge (V : Nat → T) (N p : Nat) (hp : p < N) : V p ≤ maxUpTo V N := by
  induction N with
  | zero => omega
  | succ N ih =>
    by_cases h : p = N
    · subst h
      rw [maxUpTo]
      split
      · exact le_refl _
      · rename_i h; exact not_lt.mp h
    · exact le_trans (ih (by omega)) (maxUpTo_mono V N)

theorem maxUpTo_attained (V : Nat → T) (N : Nat) :
    maxUpTo V N = 0 ∨ ∃ p, p < N ∧ maxUpTo V N = V p := by
  induction N with
  | zero => exact Or.inl rfl
  | succ N ih =>
    rw [maxUpTo]
    split
    · exact Or.inr ⟨N, by omega, rfl⟩
    · rcases ih with h | ⟨p, hp, h⟩
      · exact Or.inl h
      · exact Or.inr ⟨p, by omega, h⟩

end MaxLemmas

section ImportHelpers

variable {T : Type} [LinearOrderedRing T]

theorem import_grid_of_hasGrid (do_name_versionning : Name → Name) (GridType : GridClass)
    (reader : OpenVDBReader T) (name : Name) (data : Nat → T) (res : Fin 3 → Int)
    (h : reader.hasGrid name = true) :
    OpenVDB_import_grid do_name_versionning GridType reader name data res
      = OpenVDB_import_grid_copy GridType (reader.getGrid name) data res := by
  simp [OpenVDB_import_grid, h]

theorem hasGrid_of_getGrid (reader : OpenVDBReader T) (name : Name) (g : GridBase T)
    (h : reader.getGrid name = some g) : reader.hasGrid name = true := by
  have h' : reader.grid name = some g := h
  simp [OpenVDBReader.hasGrid, h']

theorem toNat_prod (res : Fin 3 → Int) (hres : ∀ a, 0 ≤ res a) :
    (res 0 * res 1 * res 2).toNat = (res 0).toNat * (res 1).toNat * (res 2).toNat := by
  have e0 := Int.toNat_of_nonneg (hres 0)
  have e1 := Int.toNat_of_nonneg (hres 1)
  have e2 := Int.toNat_of_nonneg (hres 2)
  have : res 0 * res 1 * res 2
      = (((res 0).toNat * (res 1).toNat * (res 2).toNat : Nat) : Int) := by
    push_cast
    rw [e0, e1, e2]
  rw [this, Int.toNat_natCast]

end ImportHelpers

end internal

namespace internal

section ExternDivergence

variable {T : Type} [LinearOrderedRing T]

theorem forLoop_body_none {S : Type} (cond : S → Bool) (step : S → S) (body : S → Option S)
    (fuel : Nat) (s : S) (hc : cond s = true) (hb : body s = none) :
    forLoop cond step body fuel s = none := by
  cases fuel with
  | zero => rfl
  | succ n => simp [forLoop, hc, hb]

theorem axisCond_init (inv : Bool) (a : Fin 3) (lo hi : Int) (h : lo < hi)
    (s : ExternState T) : axisCond inv a lo hi (axisInit inv a lo hi s) = true := by
  cases inv with
  | true =>
    simp only [axisCond, axisInit, if_true, Function.update_same, decide_eq_true_eq]
    omega
  | false =>
    simp only [axisCond, axisInit, Bool.false_eq_true, if_false, Function.update_same,
      decide_eq_true_eq]
    exact h

theorem axisCond_step_zero (acc : Tree T) (inv : Bool) (a : Fin 3) (lo hi : Int)
    (s : ExternState T) :
    axisCond inv a lo hi (axisStep inv a 0 (extern_store acc s)) = axisCond inv a lo hi s := by
  cases inv <;> simp [axisCond, axisStep, extern_store]

/-- With `level = 0` and a box that is not empty the sampling loops never end: the call
has no result, whatever the fuel. -/
theorem extern_level_zero (GridType : GridClass) (reader : OpenVDBReader T) (name : Name)
    (g : GridBase T) (hg : reader.getGrid name = some g) (hty : g.gridClass = GridType)
    (data : Nat → T) (res_min res_max res : Fin 3 → Int) (up front : Int) (r f u : Fin 3)
    (hr : Coord.axis (extern_right up front) = some r)
    (hf : Coord.axis (extern_front front) = some f)
    (hu : Coord.axis (extern_up up) = some u)
    (hbox : ∀ a, res_min a < res_max a) (max_value : Option T) (fuel : Nat) :
    OpenVDB_import_grid_extern GridType fuel reader name data res_min res_max res 0
      up front max_value = none := by
  have hg' : reader.grid name = some g := hg
  have hx : ∀ s : ExternState T,
      forLoop (axisCond (extern_inv_x up front) r (res_min 0) (res_max 0))
        (axisStep (extern_inv_x up front) r 0) (fun s => some (extern_store g.tree s)) fuel
        (axisInit (extern_inv_x up front) r (res_min 0) (res_max 0) s) = none := by
    intro s
    apply forLoop_diverges _ _ _
      (fun s => axisCond (extern_inv_x up front) r (res_min 0) (res_max 0) s = true)
    · intro s hs; exact hs
    · intro s s' hs hb
      have : s' = extern_store g.tree s := by
        simpa using hb.symm
      rw [this, axisCond_step_zero]
      exact hs
    · exact axisCond_init _ _ _ _ (hbox 0) s
  have hy : ∀ s : ExternState T,
      forLoop (axisCond (extern_inv_y front) f (res_min 1) (res_max 1))
        (axisStep (extern_inv_y front) f 0)
        (fun s =>
          forLoop (axisCond (extern_inv_x up front) r (res_min 0) (res_max 0))
            (axisStep (extern_inv_x up front) r 0) (fun s => some (extern_store g.tree s)) fuel
            (axisInit (extern_inv_x up front) r (res_min 0) (res_max 0) s))
        fuel (axisInit (extern_inv_y front) f (res_min 1) (res_max 1) s) = none := by
    intro s
    apply forLoop_body_none
    · exact axisCond_init _ _ _ _ (hbox 1) s
    · exact hx _
  have hz : ∀ s : ExternState T,
      forLoop (axisCond (extern_inv_z up) u (res_min 2) (res_max 2))
        (axisStep (extern_inv_z up) u 0)
        (fun s =>
          forLoop (axisCond (extern_inv_y front) f (res_min 1) (res_max 1))
            (axisStep (extern_inv_y front) f 0)
            (fun s =>
              forLoop (axisCond (extern_inv_x up front) r (res_min 0) (res_max 0))
                (axisStep (extern_inv_x up front) r 0)
                (fun s => some (extern_store g.tree s)) fuel
                (axisInit (extern_inv_x up front) r (res_min 0) (res_max 0) s))
            fuel (axisInit (extern_inv_y front) f (res_min 1) (res_max 1) s))
        fuel (axisInit (extern_inv_z up) u (res_min 2) (res_max 2) s) = none := by
    intro s
    apply forLoop_body_none
    · exact axisCond_init _ _ _ _ (hbox 2) s
    · exact hy _
  unfold OpenVDB_import_grid_extern
  simp only [OpenVDBReader.hasGrid, OpenVDBReader.getGrid, hg', Option.isSome_some,
    Bool.not_true, Bool.false_eq_true, if_false, GridBase.isType, hty, decide_True, hr, hf, hu]
  rw [hz]
  rfl

end ExternDivergence

end internal

namespace internal

section ExternPartial

variable {T : Type} [LinearOrderedRing T]

/-- A property that every iteration keeps holds of the result of the loop, when the loop
has one. -/
theorem forLoop_partial {S : Type} (cond : S → Bool) (step : S → S) (body : S → Option S)
    (J : S → Prop) (hbody : ∀ s s', J s → cond s = true → body s = some s' → J (step s')) :
    ∀ (fuel : Nat) (s s' : S), J s → forLoop cond step body fuel s = some s' → J s' := by
  intro fuel
  induction fuel with
  | zero =>
    intro s s' _ h
    simp [forLoop] at h
  | succ n ih =>
    intro s s' hJ h
    rw [forLoop] at h
    by_cases hc : cond s = true
    · simp only [hc, if_true] at h
      cases hb : body s with
      | none => simp [hb] at h
      | some b =>
        simp only [hb, Option.some_bind] at h
        exact ih (step b) s' (hbody s b hJ hc hb) h
    · simp only [hc, Bool.false_eq_true, if_false, Option.some.injEq] at h
      rw [← h]
      exact hJ

theorem maxUpTo_congr (V W : Nat → T) (N : Nat) (h : ∀ p, p < N → V p = W p) :
    maxUpTo V N = maxUpTo W N := by
  induction N with
  | zero => rfl
  | succ N ih =>
    have e := ih (fun p hp => h p (by omega))
    rw [maxUpTo, maxUpTo, e, h N (by omega)]

/-- Storing one sample keeps the buffer a front-filled one and `*max_value` the running
maximum of what has been stored. -/
theorem extern_store_stored (acc : Tree T) (D : Nat → T) (s : ExternState T)
    (h : ∃ V : Nat → T, s.data = prefixFill V D s.index ∧
      s.max_value = some (maxUpTo V s.index)) :
    ∃ V : Nat → T, (extern_store acc s).data = prefixFill V D (extern_store acc s).index ∧
      (extern_store acc s).max_value = some (maxUpTo V (extern_store acc s).index) := by
  obtain ⟨V, hd, hm⟩ := h
  refine ⟨Function.update V s.index (acc.getValue s.xyz), ?_, ?_⟩
  · simp only [extern_store, hd]
    funext p
    by_cases hp : p = s.index
    · subst hp
      simp [prefixFill]
    · rw [Function.update_noteq hp]
      simp only [prefixFill]
      by_cases h1 : p < s.index
      · have h2 : p < s.index + 1 := by omega
        simp [h1, h2, Function.update_noteq hp]
      · have h2 : ¬ p < s.index + 1 := by omega
        simp [h1, h2]
  · have hc : maxUpTo (Function.update V s.index (acc.getValue s.xyz)) s.index
        = maxUpTo V s.index :=
      maxUpTo_congr _ _ _ (fun p hp => Function.update_noteq (by omega) _ _)
    simp only [extern_store, hm, Function.update_same, maxUpTo, hc]
    split <;> rfl

/-- Whenever a call that finds a grid of the requested class returns and `max_value` is
not null, the buffer holds the stored samples in front of its old content and
`*max_value` is their running maximum, started at zero. -/
theorem extern_partial (GridType : GridClass) (reader : OpenVDBReader T) (name : Name)
    (g : GridBase T) (hg : reader.getGrid name = some g) (hty : g.gridClass = GridType)
    (data : Nat → T) (res_min res_max res : Fin 3 → Int) (level up front : Int) (m0 : T)
    (fuel : Nat) (out : ExternResult T)
    (h : OpenVDB_import_grid_extern GridType fuel reader name data res_min res_max res level
      up front (some m0) = some out) :
    ∃ V : Nat → T, out.data = prefixFill V data out.index ∧
      out.max_value = some (maxUpTo V out.index) := by
  have hg' : reader.grid name = some g := hg
  unfold OpenVDB_import_grid_extern at h
  simp only [OpenVDBReader.hasGrid, OpenVDBReader.getGrid, hg', Option.isSome_some,
    Bool.not_true, Bool.false_eq_true, if_false, GridBase.isType, hty, decide_True] at h
  split at h
  · rename_i r f u _ _ _
    obtain ⟨s, hs, rfl⟩ := Option.map_eq_some'.mp h
    have hx : ∀ s s' : ExternState T,
        (∃ V : Nat → T, s.data = prefixFill V data s.index ∧
          s.max_value = some (maxUpTo V s.index)) →
        forLoop (axisCond (extern_inv_x up front) r (res_min 0) (res_max 0))
          (axisStep (extern_inv_x up front) r level)
          (fun s => some (extern_store g.tree s)) fuel
          (axisInit (extern_inv_x up front) r (res_min 0) (res_max 0) s) = some s' →
        ∃ V : Nat → T, s'.data = prefixFill V data s'.index ∧
          s'.max_value = some (maxUpTo V s'.index) := by
      intro s s' hJ hrun
      refine forLoop_partial _ _ _ (fun s => ∃ V : Nat → T, s.data = prefixFill V data s.index ∧
        s.max_value = some (maxUpTo V s.index)) ?_ fuel _ s' hJ hrun
      intro a b hJa _ hb
      have hb' : b = extern_store g.tree a := by simpa using hb.symm
      rw [hb']
      exact extern_store_stored g.tree data a hJa
    have hy : ∀ s s' : ExternState T,
        (∃ V : Nat → T, s.data = prefixFill V data s.index ∧
          s.max_value = some (maxUpTo V s.index)) →
        forLoop (axisCond (extern_inv_y front) f (res_min 1) (res_max 1))
          (axisStep (extern_inv_y front) f level)
          (fun s =>
            forLoop (axisCond (extern_inv_x up front) r (res_min 0) (res_max 0))
              (axisStep (extern_inv_x up front) r level)
              (fun s => some (extern_store g.tree s)) fuel
              (axisInit (extern_inv_x up front) r (res_min 0) (res_max 0) s)) fuel
          (axisInit (extern_inv_y front) f (res_min 1) (res_max 1) s) = some s' →
        ∃ V : Nat → T, s'.data = prefixFill V data s'.index ∧
          s'.max_value = some (maxUpTo V s'.index) := by
      intro s s' hJ hrun
      refine forLoop_partial _ _ _ (fun s => ∃ V : Nat → T, s.data = prefixFill V data s.index ∧
        s.max_value = some (maxUpTo V s.index)) ?_ fuel _ s' hJ hrun
      intro a b hJa _ hb
      exact hx a b hJa hb
    refine forLoop_partial _ _ _ (fun s => ∃ V : Nat → T, s.data = prefixFill V data s.index ∧
      s.max_value = some (maxUpTo V s.index)) ?_ fuel _ s ?_ hs
    · intro a b hJa _ hb
      exact hy a b hJa hb
    · exact ⟨fun _ => 0, by simp [axisInit, prefixFill_zero], by simp [axisInit, maxUpTo]⟩
  · exact absurd h (by simp)

end ExternPartial

end internal

namespace internal

section ExternAliased

variable {T : Type} [LinearOrderedRing T]

/-- When `up` and `front` name the same axis, the three loop counters are one and the same
coordinate component.  On the box from `(0, 0, 0)` to `(1, 1, 5)` with step `1` the outer
loop then never ends: every pass of the two inner loops leaves the shared counter at most
`2`, below the outer bound. -/
theorem aliased_loop_diverges (acc : Tree T) (a : Fin 3) (fuel : Nat) (s : ExternState T) :
    forLoop (axisCond false a 0 5) (axisStep false a 1)
      (fun s =>
        forLoop (axisCond false a 0 1) (axisStep false a 1)
          (fun s =>
            forLoop (axisCond false a 0 1) (axisStep false a 1)
              (fun s => some (extern_store acc s)) fuel (axisInit false a 0 1 s))
          fuel (axisInit false a 0 1 s))
      fuel (axisInit false a 0 5 s) = none := by
  have hx : ∀ s s' : ExternState T,
      forLoop (axisCond false a 0 1) (axisStep false a 1)
        (fun s => some (extern_store acc s)) fuel (axisInit false a 0 1 s) = some s' →
      s'.xyz a ≤ 1 := by
    intro s s' hrun
    refine forLoop_partial _ _ _ (fun s => s.xyz a ≤ 1) ?_ fuel _ s' ?_ hrun
    · intro p q _ hc hq
      have hq' : q = extern_store acc p := by simpa using hq.symm
      have hc' : p.xyz a < 1 := by simpa [axisCond] using hc
      rw [hq']
      simp only [axisStep, extern_store, Bool.false_eq_true, if_false, Function.update_same]
      omega
    · simp [axisInit]
  have hy : ∀ s s' : ExternState T,
      forLoop (axisCond false a 0 1) (axisStep false a 1)
        (fun s =>
          forLoop (axisCond false a 0 1) (axisStep false a 1)
            (fun s => some (extern_store acc s)) fuel (axisInit false a 0 1 s))
        fuel (axisInit false a 0 1 s) = some s' →
      s'.xyz a ≤ 2 := by
    intro s s' hrun
    refine forLoop_partial _ _ _ (fun s => s.xyz a ≤ 2) ?_ fuel _ s' ?_ hrun
    · intro p q _ _ hq
      have := hx p q hq
      simp only [axisStep, Bool.false_eq_true, if_false, Function.update_same]
      omega
    · simp [axisInit]
  refine forLoop_diverges _ _ _ (fun s => s.xyz a < 5) ?_ ?_ fuel _ ?_
  · intro p hp
    simpa [axisCond] using hp
  · intro p q _ hq
    have := hy p q hq
    simp only [axisStep, Bool.false_eq_true, if_false, Function.update_same]
    omega
  · simp [axisInit]

/-- The call with `up = 1`, `front = 4` on the box from `(0, 0, 0)` to `(1, 1, 5)` has no
result, whatever the fuel. -/
theorem extern_aliased_diverges (fuel : Nat) :
    OpenVDB_import_grid_extern GridClass.FloatGrid fuel sampleReader "density" sampleData
      sampleMin aliasedMax sampleRes 1 1 4 (some 9) = none := by
  have hg' : sampleReader.grid "density" = some sampleGrid := rfl
  have hr : Coord.axis (extern_right 1 4) = some 1 := rfl
  have hf : Coord.axis (extern_front 4) = some 1 := rfl
  have hu : Coord.axis (extern_up 1) = some 1 := rfl
  have hty : sampleGrid.gridClass = GridClass.FloatGrid := rfl
  unfold OpenVDB_import_grid_extern
  simp only [OpenVDBReader.hasGrid, OpenVDBReader.getGrid, hg', Option.isSome_some,
    Bool.not_true, Bool.false_eq_true, if_false, GridBase.isType, hty, decide_True, hr, hf, hu]
  rw [Option.map_eq_none']
  exact aliased_loop_diverges sampleGrid.tree 1 fuel _

end ExternAliased

end internal

/-! # The claims -/

namespace internal

section Claims

variable {T : Type} [LinearOrderedRing T]

/-- C2: `OpenVDB_import_grid` copies the grid into the flat buffer in x-fastest order.
When the reader holds a grid of class `GridType` under the name and the components of
`res` are non-negative, the call returns a buffer `out` such that
`out[x + res[0]*y + res[0]*res[1]*z]` is the value of the grid at `(x, y, z)` for all
`0 <= x < res[0]`, `0 <= y < res[1]`, `0 <= z < res[2]`; every index below
`res[0]*res[1]*res[2]` is of that form, and no element at or beyond that index is
modified. -/
theorem import_grid_x_fastest (do_name_versionning : Name → Name) (GridType : GridClass)
    (reader : OpenVDBReader T) (name : Name) (g : GridBase T) (data : Nat → T)
    (res : Fin 3 → Int) (hg : reader.getGrid name = some g) (hty : g.isType GridType = true)
    (hres : ∀ a, 0 ≤ res a) :
    ∃ out, OpenVDB_import_grid do_name_versionning GridType reader name data res = some out ∧
      (∀ x y z : Int, 0 ≤ x → x < res 0 → 0 ≤ y → y < res 1 → 0 ≤ z → z < res 2 →
        out (x + res 0 * y + res 0 * res 1 * z).toNat = g.tree.getValue (Coord.mk3 x y z)) ∧
      (∀ p : Nat, (p : Int) < res 0 * res 1 * res 2 →
        ∃ x y z : Int, 0 ≤ x ∧ x < res 0 ∧ 0 ≤ y ∧ y < res 1 ∧ 0 ≤ z ∧ z < res 2 ∧
          p = (x + res 0 * y + res 0 * res 1 * z).toNat) ∧
      (∀ p : Nat, res 0 * res 1 * res 2 ≤ (p : Int) → out p = data p) := by
  have hty' : g.gridClass = GridType := by simpa [GridBase.isType] using hty
  have e0 := Int.toNat_of_nonneg (hres 0)
  have e1 := Int.toNat_of_nonneg (hres 1)
  have e2 := Int.toNat_of_nonneg (hres 2)
  have hN := toNat_prod res hres
  have hNi : res 0 * res 1 * res 2
      = (((res 0).toNat * (res 1).toNat * (res 2).toNat : Nat) : Int) := by
    push_cast
    rw [e0, e1, e2]
  refine ⟨prefixFill (importSeq g.tree (res 0).toNat (res 1).toNat) data
    ((res 0).toNat * (res 1).toNat * (res 2).toNat), ?_, ?_, ?_, ?_⟩
  · rw [import_grid_of_hasGrid _ _ _ _ _ _ (hasGrid_of_getGrid reader name g hg), hg,
      import_copy_eq GridType g hty']
  · intro x y z hx0 hx hy0 hy hz0 hz
    obtain ⟨i, rfl⟩ := Int.eq_ofNat_of_zero_le hx0
    obtain ⟨j, rfl⟩ := Int.eq_ofNat_of_zero_le hy0
    obtain ⟨k, rfl⟩ := Int.eq_ofNat_of_zero_le hz0
    have hi : i < (res 0).toNat := by omega
    have hj : j < (res 1).toNat := by omega
    have hk : k < (res 2).toNat := by omega
    have hidx : ((i : Int) + res 0 * j + res 0 * res 1 * k).toNat
        = i + (res 0).toNat * (j + (res 1).toNat * k) := by
      have : (i : Int) + res 0 * j + res 0 * res 1 * k
          = ((i + (res 0).toNat * (j + (res 1).toNat * k) : Nat) : Int) := by
        push_cast
        rw [e0, e1]
        ring
      rw [this, Int.toNat_natCast]
    rw [hidx]
    simp only [prefixFill, encode_lt hi hj hk, if_true]
    exact importSeq_encode g.tree i j k hi hj
  · intro p hp
    rw [hNi] at hp
    obtain ⟨h1, h2, h3, h4⟩ := decode_encode (Int.ofNat_lt.mp hp)
    refine ⟨((p % (res 0).toNat : Nat) : Int), ((p / (res 0).toNat % (res 1).toNat : Nat) : Int),
      ((p / (res 0).toNat / (res 1).toNat : Nat) : Int), Int.ofNat_nonneg _,
      by rw [← e0]; exact Int.ofNat_lt.mpr h1, Int.ofNat_nonneg _,
      by rw [← e1]; exact Int.ofNat_lt.mpr h2, Int.ofNat_nonneg _,
      by rw [← e2]; exact Int.ofNat_lt.mpr h3, ?_⟩
    have : ((p % (res 0).toNat : Nat) : Int) + res 0 * ((p / (res 0).toNat % (res 1).toNat : Nat) : Int)
          + res 0 * res 1 * ((p / (res 0).toNat / (res 1).toNat : Nat) : Int)
        = ((p % (res 0).toNat + (res 0).toNat * (p / (res 0).toNat % (res 1).toNat
            + (res 1).toNat * (p / (res 0).toNat / (res 1).toNat)) : Nat) : Int) := by
      push_cast
      rw [e0, e1]
      ring
    rw [this, Int.toNat_natCast]
    exact h4
  · intro p hp
    rw [hNi] at hp
    have : ¬ p < (res 0).toNat * (res 1).toNat * (res 2).toNat := by
      intro h
      exact absurd (Int.ofNat_lt.mpr h) (not_lt.mpr hp)
    simp [prefixFill, this]

/-- C2, at a sample input: a `2 x 2 x 1` import of `sampleGrid`. -/
theorem import_grid_x_fastest_witness :
    sampleReader.getGrid "density" = some sampleGrid ∧
    ∃ out, OpenVDB_import_grid sampleVersionning GridClass.FloatGrid sampleReader "density"
        sampleData sampleRes = some out ∧
      (∀ x y z : Int, 0 ≤ x → x < sampleRes 0 → 0 ≤ y → y < sampleRes 1 → 0 ≤ z →
        z < sampleRes 2 →
        out (x + sampleRes 0 * y + sampleRes 0 * sampleRes 1 * z).toNat
          = sampleGrid.tree.getValue (Coord.mk3 x y z)) ∧
      (∀ p : Nat, (p : Int) < sampleRes 0 * sampleRes 1 * sampleRes 2 →
        ∃ x y z : Int, 0 ≤ x ∧ x < sampleRes 0 ∧ 0 ≤ y ∧ y < sampleRes 1 ∧ 0 ≤ z ∧
          z < sampleRes 2 ∧
          p = (x + sampleRes 0 * y + sampleRes 0 * sampleRes 1 * z).toNat) ∧
      (∀ p : Nat, sampleRes 0 * sampleRes 1 * sampleRes 2 ≤ (p : Int) →
        out p = sampleData p) :=
  ⟨rfl, import_grid_x_fastest sampleVersionning GridClass.FloatGrid sampleReader "density"
    sampleGrid sampleData sampleRes rfl rfl (by decide)⟩

/-- C7: sampling performed by `OpenVDB_import_grid_extern`.  When the reader holds a grid
of class `GridType` under the name, `level >= 1`, and `up`, `front` are in `0..5` with
`up mod 3 != front mod 3`, let `n_a = ceil((res_max[a] - res_min[a]) / level)` (`0` when
`res_max[a] <= res_min[a]`).  Then the components `right = 3 - (up mod 3 + front mod 3)`,
`front mod 3`, `up mod 3` are valid, the call terminates (it returns for every large
enough fuel) with `true`, and it writes exactly the elements `0 .. n_0*n_1*n_2 - 1` of the
buffer: elements from `n_0*n_1*n_2` on are kept, every index below is
`i + n_0*(j + n_1*k)` for some `i < n_0`, `j < n_1`, `k < n_2`, and the element at such an
index is the value of the grid at the coordinate `c` with
`c[right] = inv_x ? res_max[0] - 1 - i*level : res_min[0] + i*level`,
`c[front mod 3] = inv_y ? res_max[1] - 1 - j*level : res_min[1] + j*level`,
`c[up mod 3] = inv_z ? res_max[2] - 1 - k*level : res_min[2] + k*level`. -/
theorem import_grid_extern_sampling (GridType : GridClass) (reader : OpenVDBReader T)
    (name : Name) (g : GridBase T) (data : Nat → T) (res_min res_max res : Fin 3 → Int)
    (level up front : Int) (max_value : Option T) (n0 n1 n2 : Nat)
    (hg : reader.getGrid name = some g) (hty : g.isType GridType = true)
    (hl : 1 ≤ level) (hu0 : 0 ≤ up) (hu5 : up ≤ 5) (hf0 : 0 ≤ front) (hf5 : front ≤ 5)
    (hne : up % 3 ≠ front % 3)
    (hn0 : n0 = sampleCount (res_min 0) (res_max 0) level)
    (hn1 : n1 = sampleCount (res_min 1) (res_max 1) level)
    (hn2 : n2 = sampleCount (res_min 2) (res_max 2) level) :
    ∃ right front' up' : Fin 3,
      Coord.axis (extern_right up front) = some right ∧
      Coord.axis (extern_front front) = some front' ∧
      Coord.axis (extern_up up) = some up' ∧
      ((right : Nat) : Int) = 3 - (up % 3 + front % 3) ∧
      ((front' : Nat) : Int) = front % 3 ∧ ((up' : Nat) : Int) = up % 3 ∧
      ∃ fuel0 : Nat, ∀ fuel, fuel0 ≤ fuel →
        ∃ out, OpenVDB_import_grid_extern GridType fuel reader name data res_min res_max res
            level up front max_value = some out ∧
          out.ret = true ∧ out.index = n0 * n1 * n2 ∧
          (∀ p : Nat, n0 * n1 * n2 ≤ p → out.data p = data p) ∧
          (∀ p : Nat, p < n0 * n1 * n2 →
            ∃ i j k : Nat, i < n0 ∧ j < n1 ∧ k < n2 ∧ p = i + n0 * (j + n1 * k)) ∧
          (∀ i j k : Nat, i < n0 → j < n1 → k < n2 → ∀ c : Coord,
            c right = (if extern_inv_x up front then res_max 0 - 1 - i * level
              else res_min 0 + i * level) →
            c front' = (if extern_inv_y front then res_max 1 - 1 - j * level
              else res_min 1 + j * level) →
            c up' = (if extern_inv_z up then res_max 2 - 1 - k * level
              else res_min 2 + k * level) →
            out.data (i + n0 * (j + n1 * k)) = g.tree.getValue c) := by
  have hty' : g.gridClass = GridType := by simpa [GridBase.isType] using hty
  obtain ⟨r, f, u, hr, hf, hu, h0, h1, h2, er, ef, eu⟩ :=
    extern_axes_valid up front hu0 hu5 hf0 hf5 hne
  refine ⟨r, f, u, hr, hf, hu, er, ef, eu, n0 + n1 + n2 + 1, ?_⟩
  intro fuel hfuel
  refine ⟨_, extern_eq GridType reader name g hg hty' data res_min res_max res level hl up
    front r f u hr hf hu h0 h1 h2 max_value fuel (by omega) (by omega) (by omega),
    rfl, by rw [hn0, hn1, hn2], ?_, ?_, ?_⟩
  · intro p hp
    have : ¬ p < n0 * n1 * n2 := by omega
    simp only [prefixFill, ← hn0, ← hn1, ← hn2, this, if_false]
  · intro p hp
    obtain ⟨h1', h2', h3', h4'⟩ := decode_encode hp
    exact ⟨_, _, _, h1', h2', h3', h4'⟩
  · intro i j k hi hj hk c hcr hcf hcu
    simp only [prefixFill, ← hn0, ← hn1, ← hn2, encode_lt hi hj hk, if_true, externSeq]
    rw [decode_x n1 i j k hi, decode_y i j k hi hj, decode_z i j k hi hj,
      coord_eq_axesCoord r f u h0 h1 h2 c, hcr, hcf, hcu]
    rfl

/-- C7, at a sample input: `sampleGrid` sampled on `2 x 2 x 1` voxels with `level = 1`,
`up = 2`, `front = 1`. -/
theorem import_grid_extern_sampling_witness :
    ∃ right front' up' : Fin 3,
      Coord.axis (extern_right 2 1) = some right ∧
      Coord.axis (extern_front 1) = some front' ∧
      Coord.axis (extern_up 2) = some up' ∧
      ((right : Nat) : Int) = 3 - (2 % 3 + 1 % 3) ∧
      ((front' : Nat) : Int) = 1 % 3 ∧ ((up' : Nat) : Int) = 2 % 3 ∧
      ∃ fuel0 : Nat, ∀ fuel, fuel0 ≤ fuel →
        ∃ out, OpenVDB_import_grid_extern GridClass.FloatGrid fuel sampleReader "density"
            sampleData sampleMin sampleRes sampleRes 1 2 1 (some 9) = some out ∧
          out.ret = true ∧ out.index = 2 * 2 * 1 ∧
          (∀ p : Nat, 2 * 2 * 1 ≤ p → out.data p = sampleData p) ∧
          (∀ p : Nat, p < 2 * 2 * 1 →
            ∃ i j k : Nat, i < 2 ∧ j < 2 ∧ k < 1 ∧ p = i + 2 * (j + 2 * k)) ∧
          (∀ i j k : Nat, i < 2 → j < 2 → k < 1 → ∀ c : Coord,
            c right = (if extern_inv_x 2 1 then sampleRes 0 - 1 - i * 1
              else sampleMin 0 + i * 1) →
            c front' = (if extern_inv_y 1 then sampleRes 1 - 1 - j * 1
              else sampleMin 1 + j * 1) →
            c up' = (if extern_inv_z 2 then sampleRes 2 - 1 - k * 1
              else sampleMin 2 + k * 1) →
            out.data (i + 2 * (j + 2 * k)) = sampleGrid.tree.getValue c) :=
  import_grid_extern_sampling GridClass.FloatGrid sampleReader "density" sampleGrid sampleData
    sampleMin sampleRes sampleRes 1 2 1 (some 9) 2 2 1 rfl rfl (by decide) (by decide)
    (by decide) (by decide) (by decide) (by decide)
    (by rw [sampleCount_eq_div _ _ _ (by decide)]; rfl)
    (by rw [sampleCount_eq_div _ _ _ (by decide)]; rfl)
    (by rw [sampleCount_eq_div _ _ _ (by decide)]; rfl)

/-- C5, as amended: the `max_value` output of `OpenVDB_import_grid_extern` is the maximum
of `0` and the imported values.  For every call in which the reader holds a grid of class
`GridType` under the name and `max_value` is not null, on return `*max_value = mx` where
`mx >= 0`, `mx` is at least every value stored (the stored values are the elements below
the final `index`; the elements from `index` on are unchanged), and `mx` is `0` or one of
the stored values; so `mx` is the maximum of the stored values as soon as one of them is
not negative.  Such a call does return when `level >= 1` and `up`, `front` are in `0..5`
on different axes, and it then stores `n_0*n_1*n_2` samples. -/
theorem import_grid_extern_max_value (GridType : GridClass) (reader : OpenVDBReader T)
    (name : Name) (g : GridBase T) (data : Nat → T) (res_min res_max res : Fin 3 → Int)
    (level up front : Int) (m0 : T)
    (hg : reader.getGrid name = some g) (hty : g.isType GridType = true) :
    (∀ fuel out, OpenVDB_import_grid_extern GridType fuel reader name data res_min res_max
        res level up front (some m0) = some out →
      ∃ mx, out.max_value = some mx ∧ 0 ≤ mx ∧
        (∀ p : Nat, p < out.index → out.data p ≤ mx) ∧
        (mx = 0 ∨ ∃ p : Nat, p < out.index ∧ mx = out.data p) ∧
        ((∃ p : Nat, p < out.index ∧ 0 ≤ out.data p) →
          ∃ p : Nat, p < out.index ∧ mx = out.data p) ∧
        (∀ p : Nat, out.index ≤ p → out.data p = data p)) ∧
    (1 ≤ level → 0 ≤ up → up ≤ 5 → 0 ≤ front → front ≤ 5 → up % 3 ≠ front % 3 →
      ∃ fuel0 : Nat, ∀ fuel, fuel0 ≤ fuel →
        ∃ out, OpenVDB_import_grid_extern GridType fuel reader name data res_min res_max res
            level up front (some m0) = some out ∧
          out.index = sampleCount (res_min 0) (res_max 0) level
            * sampleCount (res_min 1) (res_max 1) level
            * sampleCount (res_min 2) (res_max 2) level) := by
  have hty' : g.gridClass = GridType := by simpa [GridBase.isType] using hty
  refine ⟨?_, ?_⟩
  · intro fuel out h
    obtain ⟨V, hd, hm⟩ := extern_partial GridType reader name g hg hty' data res_min res_max
      res level up front m0 fuel out h
    have hdata : ∀ p : Nat, p < out.index → out.data p = V p := by
      intro p hp
      rw [hd]
      simp [prefixFill, hp]
    have hatt : maxUpTo V out.index = 0 ∨
        ∃ p : Nat, p < out.index ∧ maxUpTo V out.index = out.data p := by
      rcases maxUpTo_attained V out.index with h1 | ⟨p, hp, h1⟩
      · exact Or.inl h1
      · exact Or.inr ⟨p, hp, by rw [hdata p hp]; exact h1⟩
    refine ⟨maxUpTo V out.index, hm, maxUpTo_nonneg _ _, ?_, hatt, ?_, ?_⟩
    · intro p hp
      rw [hdata p hp]
      exact maxUpTo_ge V _ p hp
    · rintro ⟨p, hp, hpos⟩
      rcases hatt with h1 | h1
      · refine ⟨p, hp, ?_⟩
        have hle := maxUpTo_ge V out.index p hp
        rw [h1] at hle
        rw [hdata p hp] at hpos ⊢
        rw [h1]
        exact le_antisymm hpos hle
      · exact h1
    · intro p hp
      have : ¬ p < out.index := by omega
      rw [hd]
      simp [prefixFill, this]
  · intro hl hu0 hu5 hf0 hf5 hne
    obtain ⟨r, f, u, hr, hf, hu, h0, h1, h2, _, _, _⟩ :=
      extern_axes_valid up front hu0 hu5 hf0 hf5 hne
    refine ⟨sampleCount (res_min 0) (res_max 0) level + sampleCount (res_min 1) (res_max 1) level
      + sampleCount (res_min 2) (res_max 2) level + 1, ?_⟩
    intro fuel hfuel
    exact ⟨_, extern_eq GridType reader name g hg hty' data res_min res_max res level hl up
      front r f u hr hf hu h0 h1 h2 (some m0) fuel (by omega) (by omega) (by omega), rfl⟩

/-- C5 as amended, at a sample input: `sampleGrid` sampled on `2 x 2 x 1` voxels with
`level = 1`, `up = 2`, `front = 1`. -/
theorem import_grid_extern_max_value_witness :
    (∃ out, OpenVDB_import_grid_extern GridClass.FloatGrid 3 sampleReader "density"
        sampleData sampleMin sampleRes sampleRes 1 2 1 (some 9) = some out ∧
      ∃ mx, out.max_value = some mx ∧ 0 ≤ mx ∧
        (∀ p : Nat, p < out.index → out.data p ≤ mx) ∧
        (mx = 0 ∨ ∃ p : Nat, p < out.index ∧ mx = out.data p) ∧
        ((∃ p : Nat, p < out.index ∧ 0 ≤ out.data p) →
          ∃ p : Nat, p < out.index ∧ mx = out.data p) ∧
        (∀ p : Nat, out.index ≤ p → out.data p = sampleData p)) ∧
    (∃ fuel0 : Nat, ∀ fuel, fuel0 ≤ fuel →
      ∃ out, OpenVDB_import_grid_extern GridClass.FloatGrid fuel sampleReader "density"
          sampleData sampleMin sampleRes sampleRes 1 2 1 (some 9) = some out ∧
        out.index = sampleCount (sampleMin 0) (sampleRes 0) 1
          * sampleCount (sampleMin 1) (sampleRes 1) 1
          * sampleCount (sampleMin 2) (sampleRes 2) 1) :=
  have hc : ∀ a, sampleCount (sampleMin a) (sampleRes a) 1 < 3 := by
    intro a
    rw [sampleCount_eq_div _ _ _ (by decide)]
    fin_cases a <;> decide
  have hrun := extern_eq GridClass.FloatGrid sampleReader "density" sampleGrid rfl rfl
    sampleData sampleMin sampleRes sampleRes 1 (by decide) 2 1 0 1 2 rfl rfl rfl
    (by decide) (by decide) (by decide) (some 9) 3 (hc 0) (hc 1) (hc 2)
  ⟨⟨_, hrun,
      (import_grid_extern_max_value GridClass.FloatGrid sampleReader "density" sampleGrid
        sampleData sampleMin sampleRes sampleRes 1 2 1 9 rfl rfl).1 3 _ hrun⟩,
    (import_grid_extern_max_value GridClass.FloatGrid sampleReader "density" sampleGrid
      sampleData sampleMin sampleRes sampleRes 1 2 1 9 rfl rfl).2 (by decide) (by decide)
      (by decide) (by decide) (by decide) (by decide)⟩

/-- C5 as stated fails: on a grid that is `-1` everywhere, sampling the single voxel
`(0, 0, 0)` stores the one value `-1` at index `0` and nothing else, yet `*max_value`
is `0` on return, not `-1`. -/
theorem import_grid_extern_max_value_counterexample :
    negativeReader.getGrid "density" = some negativeGrid ∧
    negativeGrid.isType GridClass.FloatGrid = true ∧
    ∃ out, OpenVDB_import_grid_extern GridClass.FloatGrid 2 negativeReader "density"
        sampleData sampleMin sampleUnit sampleUnit 1 2 1 (some 9) = some out ∧
      out.ret = true ∧ out.index = 1 ∧ out.data 0 = -1 ∧
      (∀ p : Nat, 1 ≤ p → out.data p = sampleData p) ∧
      out.max_value = some 0 ∧ (0 : Int) ≠ -1 := by
  have hc : ∀ a, sampleCount (sampleMin a) (sampleUnit a) 1 = 1 := by
    intro a
    rw [sampleCount_eq_div _ _ _ (by decide)]
    rfl
  have h := extern_eq GridClass.FloatGrid negativeReader "density" negativeGrid rfl rfl
    sampleData sampleMin sampleUnit sampleUnit 1 (by decide) 2 1 0 1 2 rfl rfl rfl
    (by decide) (by decide) (by decide) (some 9) 2 (by rw [hc]; decide) (by rw [hc]; decide)
    (by rw [hc]; decide)
  rw [hc 0, hc 1, hc 2] at h
  refine ⟨rfl, rfl, _, h, rfl, rfl, ?_, ?_, ?_, by decide⟩
  · simp [prefixFill, externSeq, Tree.getValue, negativeGrid]
  · intro p hp
    have : ¬ p < 1 := by omega
    simp [prefixFill, this]
  · simp [maxUpTo, externSeq, Tree.getValue, negativeGrid]

/-- C4, as amended: return contract of `OpenVDB_import_grid_extern`.
(1) When the reader holds a grid under the name whose class is not `GridType`, the call
returns `false` and neither the buffer nor `*max_value` is modified.
(2) A call returns `false` only in that case.
(3) When the reader holds no grid under the name and `res[0]*res[1]*res[2] >= 0`, the
call returns `true`, the first `res[0]*res[1]*res[2]` elements of the buffer are zero, the
others are kept, and `*max_value` is not modified.
(4) When the reader holds a grid of class `GridType` under the name, `level >= 1` and
`up`, `front` are in `0..5` on different axes, the call returns `true` (for every large
enough fuel). -/
theorem import_grid_extern_return (GridType : GridClass) (reader : OpenVDBReader T)
    (name : Name) (data : Nat → T) (res_min res_max res : Fin 3 → Int)
    (level up front : Int) (max_value : Option T) :
    (∀ g, reader.getGrid name = some g → g.isType GridType = false → ∀ fuel,
      OpenVDB_import_grid_extern GridType fuel reader name data res_min res_max res level
        up front max_value
      = some { ret := false, index := 0, data := data, max_value := max_value }) ∧
    (∀ fuel out, OpenVDB_import_grid_extern GridType fuel reader name data res_min res_max
        res level up front max_value = some out → out.ret = false →
      ∃ g, reader.getGrid name = some g ∧ g.isType GridType = false) ∧
    (reader.hasGrid name = false → 0 ≤ res 0 * res 1 * res 2 → ∀ fuel,
      ∃ out, OpenVDB_import_grid_extern GridType fuel reader name data res_min res_max res
          level up front max_value = some out ∧
        out.ret = true ∧
        (∀ p : Nat, (p : Int) < res 0 * res 1 * res 2 → out.data p = 0) ∧
        (∀ p : Nat, res 0 * res 1 * res 2 ≤ (p : Int) → out.data p = data p) ∧
        out.max_value = max_value) ∧
    (∀ g, reader.getGrid name = some g → g.isType GridType = true → 1 ≤ level →
      0 ≤ up → up ≤ 5 → 0 ≤ front → front ≤ 5 → up % 3 ≠ front % 3 →
      ∃ fuel0 : Nat, ∀ fuel, fuel0 ≤ fuel →
        ∃ out, OpenVDB_import_grid_extern GridType fuel reader name data res_min res_max res
            level up front max_value = some out ∧ out.ret = true) := by
  refine ⟨?_, ?_, ?_, ?_⟩
  · intro g hg hty fuel
    have hg' : reader.grid name = some g := hg
    simp [ OpenVDB_import_grid_extern, OpenVDBReader.hasGrid, OpenVDBReader.getGrid, hg', hty]
  · intro fuel out h hret
    unfold OpenVDB_import_grid_extern at h
    cases hgg : reader.grid name with
    | none =>
      exfalso
      simp only [OpenVDBReader.hasGrid, hgg, Option.isSome_none, Bool.not_false, if_true] at h
      obtain ⟨d, _, hd⟩ := Option.map_eq_some'.mp h
      rw [← hd] at hret
      exact absurd hret (by simp)
    | some g =>
      simp only [OpenVDBReader.hasGrid, OpenVDBReader.getGrid, hgg, Option.isSome_some,
        Bool.not_true, Bool.false_eq_true, if_false] at h
      cases ht : g.isType GridType with
      | false => exact ⟨g, hgg, ht⟩
      | true =>
        exfalso
        simp only [ht, Bool.not_true, Bool.false_eq_true, if_false] at h
        split at h
        · obtain ⟨s, _, hs⟩ := Option.map_eq_some'.mp h
          rw [← hs] at hret
          exact absurd hret (by simp)
        · exact absurd h (by simp)
  · intro hh hP fuel
    refine ⟨{ ret := true, index := 0,
              data := fun i => if (i : Int) < res 0 * res 1 * res 2 then 0 else data i,
              max_value := max_value }, ?_, rfl, ?_, ?_, rfl⟩
    · simp [ OpenVDB_import_grid_extern, hh, memset_zero, not_lt.mpr hP]
    · intro p hp
      simp [hp]
    · intro p hp
      simp [not_lt.mpr hp]
  · intro g hg hty hl hu0 hu5 hf0 hf5 hne
    have hty' : g.gridClass = GridType := by simpa [GridBase.isType] using hty
    obtain ⟨r, f, u, hr, hf, hu, h0, h1, h2, _, _, _⟩ :=
      extern_axes_valid up front hu0 hu5 hf0 hf5 hne
    refine ⟨sampleCount (res_min 0) (res_max 0) level + sampleCount (res_min 1) (res_max 1) level
      + sampleCount (res_min 2) (res_max 2) level + 1, ?_⟩
    intro fuel hfuel
    exact ⟨_, extern_eq GridType reader name g hg hty' data res_min res_max res level hl up
      front r f u hr hf hu h0 h1 h2 max_value fuel (by omega) (by omega) (by omega), rfl⟩

/-- C4 as amended, at sample inputs: a grid of another class, a missing name, and a grid
of the requested class sampled with `level = 1`. -/
theorem import_grid_extern_return_witness :
    (∀ fuel, OpenVDB_import_grid_extern GridClass.Int32Grid fuel sampleReader "density"
        sampleData sampleMin sampleRes sampleRes 1 2 1 (some 9)
      = some { ret := false, index := 0, data := sampleData, max_value := some 9 }) ∧
    (∃ g, sampleReader.getGrid "density" = some g ∧ g.isType GridClass.Int32Grid = false) ∧
    (∀ fuel, ∃ out, OpenVDB_import_grid_extern GridClass.FloatGrid fuel sampleReader "heat"
        sampleData sampleMin sampleRes sampleRes 1 2 1 (some 9) = some out ∧
      out.ret = true ∧
      (∀ p : Nat, (p : Int) < sampleRes 0 * sampleRes 1 * sampleRes 2 → out.data p = 0) ∧
      (∀ p : Nat, sampleRes 0 * sampleRes 1 * sampleRes 2 ≤ (p : Int) →
        out.data p = sampleData p) ∧
      out.max_value = some 9) ∧
    (∃ fuel0 : Nat, ∀ fuel, fuel0 ≤ fuel →
      ∃ out, OpenVDB_import_grid_extern GridClass.FloatGrid fuel sampleReader "density"
        sampleData sampleMin sampleRes sampleRes 1 2 1 (some 9) = some out ∧ out.ret = true) :=
  ⟨(import_grid_extern_return GridClass.Int32Grid sampleReader "density" sampleData sampleMin
      sampleRes sampleRes 1 2 1 (some 9)).1 sampleGrid rfl rfl,
   (import_grid_extern_return GridClass.Int32Grid sampleReader "density" sampleData sampleMin
      sampleRes sampleRes 1 2 1 (some 9)).2.1 0
      { ret := false, index := 0, data := sampleData, max_value := some 9 }
      ((import_grid_extern_return GridClass.Int32Grid sampleReader "density" sampleData
        sampleMin sampleRes sampleRes 1 2 1 (some 9)).1 sampleGrid rfl rfl 0) rfl,
   (import_grid_extern_return GridClass.FloatGrid sampleReader "heat" sampleData sampleMin
      sampleRes sampleRes 1 2 1 (some 9)).2.2.1 rfl (by decide),
   (import_grid_extern_return GridClass.FloatGrid sampleReader "density" sampleData sampleMin
      sampleRes sampleRes 1 2 1 (some 9)).2.2.2 sampleGrid rfl rfl (by decide) (by decide)
      (by decide) (by decide) (by decide) (by decide)⟩

/-- C4 as stated fails: there are calls that return neither `false` nor `true`.  With
`level = 0` on a box that is not empty, a call that finds a grid of the requested class
never returns.  A call that finds no grid has no result when `res[0]*res[1]*res[2]` is
negative.  With `up = 1` and `front = 4`, which name the same axis, a call with `level = 1`
on the box from `(0, 0, 0)` to `(1, 1, 5)` never returns. -/
theorem import_grid_extern_return_counterexample :
    sampleReader.getGrid "density" = some sampleGrid ∧
    sampleGrid.isType GridClass.FloatGrid = true ∧
    (∀ fuel, OpenVDB_import_grid_extern GridClass.FloatGrid fuel sampleReader "density"
      sampleData sampleMin sampleRes sampleRes 0 2 1 (some 9) = none) ∧
    sampleReader.hasGrid "heat" = false ∧
    (∀ fuel, OpenVDB_import_grid_extern GridClass.FloatGrid fuel sampleReader "heat"
      sampleData sampleMin sampleRes negativeRes 1 2 1 (some 9) = none) ∧
    (∀ fuel, OpenVDB_import_grid_extern GridClass.FloatGrid fuel sampleReader "density"
      sampleData sampleMin aliasedMax sampleRes 1 1 4 (some 9) = none) :=
  ⟨rfl, rfl, fun fuel =>
    extern_level_zero GridClass.FloatGrid sampleReader "density" sampleGrid rfl rfl sampleData
      sampleMin sampleRes sampleRes 2 1 0 1 2 rfl rfl rfl (by decide) (some 9) fuel,
    rfl, fun _ => rfl, extern_aliased_diverges⟩

end Claims

end internal

/-- C6: `manipulator_dial_invoke` starts a fresh interaction.  For every event and
manipulator it returns `OPERATOR_RUNNING_MODAL` and sets `interaction_data` to a new
`DialInteraction` whose `init_mval` equals the event's `mval` in both components, whose
`rotations` is `0` and whose `last_angle` is `0`; no other field of the manipulator is
changed. -/
theorem manipulator_dial_invoke_fresh {E R : Type} (event : wmEvent E)
    (manipulator : wmManipulator R) :
    (manipulator_dial_invoke event manipulator).1 = OperatorStatus.OPERATOR_RUNNING_MODAL ∧
    (∃ inter : DialInteraction,
      (manipulator_dial_invoke event manipulator).2
        = { manipulator with interaction_data := some inter } ∧
      inter.init_mval 0 = (event.mval 0 : CFloat) ∧
      inter.init_mval 1 = (event.mval 1 : CFloat) ∧
      inter.rotations = 0 ∧ inter.last_angle = 0) ∧
    (manipulator_dial_invoke event manipulator).2.state = manipulator.state ∧
    (manipulator_dial_invoke event manipulator).2.line_width = manipulator.line_width ∧
    (manipulator_dial_invoke event manipulator).2.origin = manipulator.origin ∧
    (manipulator_dial_invoke event manipulator).2.scale = manipulator.scale ∧
    (manipulator_dial_invoke event manipulator).2.rest = manipulator.rest := by
  refine ⟨rfl, ⟨_, rfl, ?_, ?_, rfl, rfl⟩, rfl, rfl, rfl, rfl, rfl⟩
  · simp [DialInteraction.calloc]
  · simp [DialInteraction.calloc]
